import Mathlib

/-!
Verification model of the Gkicks_System HTTP route handlers
(orders listing/creation/update, addresses CRUD, bearer-token auth).

The handlers are shallowly embedded as pure functions over an explicit
database state.  External collaborators (the JWT library, the stock
adjustment endpoint, the MySQL driver) are parameters of the model:

* `verify` models jwt.verify against the shared secret;
* `collab` models the stock adjustment HTTP endpoint (it may read and
  update the database, since the real endpoint writes the products table);
* `strMode` models whether the MySQL driver returns numeric columns as
  strings (the spec notes the driver may do so for DECIMAL columns).

JavaScript JSON values are modelled by the inductive type `Json`, with
JSON numbers restricted to integers (floating point is out of scope of
the shallow embedding).  JSON.stringify and JSON.parse are modelled by
`jsonStringify` and `parseJsonTop`, with a proved round-trip theorem.
-/

/-- JavaScript JSON values.  Numbers are modelled as integers; object
fields keep their insertion order, as JavaScript objects do. -/
inductive Json where
  | null : Json
  | bool (b : Bool) : Json
  | num (n : Int) : Json
  | str (s : String) : Json
  | arr (elems : List Json) : Json
  | obj (fields : List (String × Json)) : Json

/-- The two brace characters, kept as named constants. -/
def lbrace : Char := Char.ofNat 123

def rbrace : Char := Char.ofNat 125

/-- Decimal digit character for a value below ten. -/
def digitChar10 (n : Nat) : Char := Char.ofNat (48 + n)

/-- Is the character a decimal digit. -/
def isDigitCh (c : Char) : Bool := 48 ≤ c.toNat && c.toNat ≤ 57

/-- Decimal digits of a natural number, most significant first. -/
def natChars (n : Nat) : List Char :=
  if _h : n < 10 then [digitChar10 n]
  else natChars (n / 10) ++ [digitChar10 (n % 10)]
termination_by n
decreasing_by exact Nat.div_lt_self (by omega) (by omega)

/-- Decimal rendering of an integer, as JavaScript renders integral numbers. -/
def intChars (n : Int) : List Char :=
  if n < 0 then '-' :: natChars n.natAbs else natChars n.natAbs

/-- String form of an integer (template-literal interpolation of a number). -/
def intToString (n : Int) : String := String.mk (intChars n)

/-- Lower-case hexadecimal digit for a value below sixteen. -/
def hexCh (n : Nat) : Char := if n < 10 then digitChar10 n else Char.ofNat (87 + n)

/-- JSON escaping of one character: quotes and backslashes get a backslash,
control characters become a unicode escape, the rest pass through. -/
def escapeChar (c : Char) : List Char :=
  if c = '"' then ['\\', '"']
  else if c = '\\' then ['\\', '\\']
  else if c.toNat < 32 then ['\\', 'u', '0', '0', hexCh (c.toNat / 16), hexCh (c.toNat % 16)]
  else [c]

/-- JSON escaping of a character list. -/
def escapeChars : List Char → List Char
  | [] => []
  | c :: cs => escapeChar c ++ escapeChars cs

mutual

/-- JSON.stringify, producing the serialized character list. -/
def stringifyJson : Json → List Char
  | .null => "null".data
  | .bool true => "true".data
  | .bool false => "false".data
  | .num n => intChars n
  | .str s => '"' :: (escapeChars s.data ++ ['"'])
  | .arr l => '[' :: (stringifyElems l ++ [']'])
  | .obj l => lbrace :: (stringifyFields l ++ [rbrace])

/-- Serialization of array elements, comma separated. -/
def stringifyElems : List Json → List Char
  | [] => []
  | [x] => stringifyJson x
  | x :: y :: xs => stringifyJson x ++ ',' :: stringifyElems (y :: xs)

/-- Serialization of object fields, comma separated. -/
def stringifyFields : List (String × Json) → List Char
  | [] => []
  | [(k, v)] => '"' :: (escapeChars k.data ++ '"' :: ':' :: stringifyJson v)
  | (k, v) :: p :: ps =>
      ('"' :: (escapeChars k.data ++ '"' :: ':' :: stringifyJson v))
        ++ ',' :: stringifyFields (p :: ps)

end

/-- JSON.stringify as a string-valued function. -/
def jsonStringify (j : Json) : String := String.mk (stringifyJson j)

/-- Drop an expected literal prefix, returning the remainder. -/
def expectChars : List Char → List Char → Option (List Char)
  | [], s => some s
  | _ :: _, [] => none
  | c :: cs, d :: ds => if d = c then expectChars cs ds else none

/-- One-character JSON string escapes accepted after a backslash. -/
def unescapeChar (c : Char) : Option Char :=
  if c = '"' then some '"'
  else if c = '\\' then some '\\'
  else if c = '/' then some '/'
  else if c = 'b' then some (Char.ofNat 8)
  else if c = 'f' then some (Char.ofNat 12)
  else if c = 'n' then some (Char.ofNat 10)
  else if c = 'r' then some (Char.ofNat 13)
  else if c = 't' then some (Char.ofNat 9)
  else none

/-- Value of a hexadecimal digit character. -/
def hexVal (c : Char) : Option Nat :=
  if 48 ≤ c.toNat && c.toNat ≤ 57 then some (c.toNat - 48)
  else if 97 ≤ c.toNat && c.toNat ≤ 102 then some (c.toNat - 87)
  else if 65 ≤ c.toNat && c.toNat ≤ 70 then some (c.toNat - 55)
  else none

/-- Parse the body of a JSON string up to and including the closing quote,
returning the unescaped content and the remainder. -/
def parseStringChars : List Char → Option (List Char × List Char)
  | [] => none
  | c :: rest =>
    if c = '"' then some ([], rest)
    else if c = '\\' then
      match rest with
      | [] => none
      | e :: rest2 =>
        if e = 'u' then
          match rest2 with
          | h1 :: h2 :: h3 :: h4 :: rest3 =>
            match hexVal h1, hexVal h2, hexVal h3, hexVal h4 with
            | some a, some b, some c3, some d =>
              match parseStringChars rest3 with
              | some (cs, r) => some (Char.ofNat (((a * 16 + b) * 16 + c3) * 16 + d) :: cs, r)
              | none => none
            | _, _, _, _ => none
          | _ => none
        else
          match unescapeChar e with
          | some u =>
            match parseStringChars rest2 with
            | some (cs, r) => some (u :: cs, r)
            | none => none
          | none => none
    else
      match parseStringChars rest with
      | some (cs, r) => some (c :: cs, r)
      | none => none
termination_by s => s.length
decreasing_by all_goals simp_arith [List.length]

/-- Take the maximal run of leading decimal digits. -/
def takeDigits : List Char → (List Char × List Char)
  | [] => ([], [])
  | c :: rest =>
    if isDigitCh c then
      let (ds, r) := takeDigits rest
      (c :: ds, r)
    else ([], c :: rest)

/-- Numeric value of a list of decimal digit characters. -/
def digitsToNat (ds : List Char) : Nat :=
  ds.foldl (fun a c => a * 10 + (c.toNat - 48)) 0

/-- True when the list does not begin with a decimal digit. -/
def headNotDigit : List Char → Bool
  | [] => true
  | c :: _ => !(isDigitCh c)

/-- One step of the JSON value parser, parameterized by the parsers `pa` for
nonempty array bodies and `po` for nonempty object bodies. -/
def parseValStep (pa po : List Char → Option (Json × List Char)) :
    List Char → Option (Json × List Char)
  | [] => none
  | c :: rest =>
    if c = 'n' then
      match expectChars ['u', 'l', 'l'] rest with
      | some r => some (.null, r)
      | none => none
    else if c = 't' then
      match expectChars ['r', 'u', 'e'] rest with
      | some r => some (.bool true, r)
      | none => none
    else if c = 'f' then
      match expectChars ['a', 'l', 's', 'e'] rest with
      | some r => some (.bool false, r)
      | none => none
    else if c = '"' then
      match parseStringChars rest with
      | some (cs, r) => some (.str (String.mk cs), r)
      | none => none
    else if c = '[' then
      match rest with
      | [] => none
      | c2 :: r2 => if c2 = ']' then some (.arr [], r2) else pa (c2 :: r2)
    else if c = lbrace then
      match rest with
      | [] => none
      | c2 :: r2 => if c2 = rbrace then some (.obj [], r2) else po (c2 :: r2)
    else if c = '-' then
      match takeDigits rest with
      | ([], _) => none
      | (ds, r) => some (.num (-(digitsToNat ds : Int)), r)
    else if isDigitCh c then
      match takeDigits rest with
      | (ds, r) => some (.num ((digitsToNat (c :: ds) : Nat) : Int), r)
    else none

/-- One step of the array-body parser: one element via `pj`, then either a
comma and further elements via `pa`, or the closing bracket. -/
def parseArrStep (pj pa : List Char → Option (Json × List Char)) (s : List Char) :
    Option (Json × List Char) :=
  match pj s with
  | none => none
  | some (j, r) =>
    match r with
    | [] => none
    | c :: r2 =>
      if c = ',' then
        match pa r2 with
        | some (.arr js, r3) => some (.arr (j :: js), r3)
        | _ => none
      else if c = ']' then some (.arr [j], r2)
      else none

/-- One step of the object-body parser: a quoted key, a colon, a value via
`pj`, then either a comma and further fields via `po`, or the closing brace. -/
def parseObjStep (pj po : List Char → Option (Json × List Char)) (s : List Char) :
    Option (Json × List Char) :=
  match s with
  | [] => none
  | c :: rest =>
    if c = '"' then
      match parseStringChars rest with
      | none => none
      | some (k, r1) =>
        match r1 with
        | [] => none
        | c1 :: r2 =>
          if c1 = ':' then
            match pj r2 with
            | none => none
            | some (v, r3) =>
              match r3 with
              | [] => none
              | c2 :: r4 =>
                if c2 = ',' then
                  match po r4 with
                  | some (.obj ps, r5) => some (.obj ((String.mk k, v) :: ps), r5)
                  | _ => none
                else if c2 = rbrace then some (.obj [(String.mk k, v)], r4)
                else none
          else none
    else none

/-- The three fuel-indexed parsers (value, array body, object body), built by
one structural recursion on the fuel. -/
def parsers : Nat →
    (List Char → Option (Json × List Char)) × (List Char → Option (Json × List Char)) ×
      (List Char → Option (Json × List Char))
  | 0 => (fun _ => none, fun _ => none, fun _ => none)
  | fuel + 1 =>
    let prev := parsers fuel
    (parseValStep prev.2.1 prev.2.2, parseArrStep prev.1 prev.2.1, parseObjStep prev.1 prev.2.2)

/-- Fuel-indexed JSON value parser: parses one value off the front, returning
it and the remainder.  The fuel bounds the nesting of recursive parser calls. -/
def parseJson (fuel : Nat) (s : List Char) : Option (Json × List Char) := (parsers fuel).1 s

/-- Fuel-indexed parser for the elements of a nonempty JSON array. -/
def parseArrElems (fuel : Nat) (s : List Char) : Option (Json × List Char) :=
  (parsers fuel).2.1 s

/-- Fuel-indexed parser for the fields of a nonempty JSON object. -/
def parseObjElems (fuel : Nat) (s : List Char) : Option (Json × List Char) :=
  (parsers fuel).2.2 s

/-- JSON.parse: succeeds only when the whole input is one JSON value. -/
def parseJsonTop (s : String) : Option Json :=
  match parseJson (2 * s.data.length + 1) s.data with
  | some (j, []) => some j
  | _ => none

/-- Truthiness of a JavaScript value: null, false, zero and the empty string
are falsy, everything else (arrays and objects included) is truthy. -/
def Json.truthy : Json → Bool
  | .null => false
  | .bool b => b
  | .num n => n != 0
  | .str s => s != ""
  | .arr _ => true
  | .obj _ => true

/-- First binding of a key in an object field list. -/
def lookupField : List (String × Json) → String → Option Json
  | [], _ => none
  | (k', v) :: rest, k => if k' = k then some v else lookupField rest k

/-- Property access on a JSON value: defined on objects, absent elsewhere. -/
def Json.getField : Json → String → Option Json
  | .obj fields, k => lookupField fields k
  | _, _ => none

/-- Overwrite the first binding of a key, appending the binding if absent
(the behaviour of a spread followed by an explicit field). -/
def setField : List (String × Json) → String → Json → List (String × Json)
  | [], k, v => [(k, v)]
  | (k', v') :: rest, k, v =>
    if k' = k then (k', v) :: rest else (k', v') :: setField rest k v

mutual

/-- Parser fuel needed for a JSON value (one unit per recursive parser call). -/
def needJson : Json → Nat
  | .null => 1
  | .bool _ => 1
  | .num _ => 1
  | .str _ => 1
  | .arr [] => 1
  | .arr (x :: xs) => 1 + needElems (x :: xs)
  | .obj [] => 1
  | .obj (p :: ps) => 1 + needFields (p :: ps)

/-- Parser fuel needed for a list of array elements. -/
def needElems : List Json → Nat
  | [] => 0
  | x :: xs => 1 + needJson x + needElems xs

/-- Parser fuel needed for a list of object fields. -/
def needFields : List (String × Json) → Nat
  | [] => 0
  | (_, v) :: ps => 1 + needJson v + needFields ps

end

/-- Payload carried by a verified JWT. -/
structure TokenPayload where
  userId : String
  email : String

/-- The authenticated caller identity derived from a token. -/
structure AuthUser where
  id : String
  email : String

/-- A row of the products table (read-only in this scope). -/
structure ProductRow where
  id : Nat
  name : String
  brand : String
  image_url : Option String
  variants : Option String
  stock_quantity : Int

/-- A row of the orders table.  Columns not set by the INSERT statements take
schema defaults, modelled as zero / empty / null (their exact values are
outside this scope and never observed by the claims). -/
structure OrderRow where
  id : Nat
  user_id : Option String
  order_number : String
  status : String
  payment_status : String
  payment_method : Option String
  payment_screenshot : Option String
  subtotal : Int
  tax_amount : Int
  shipping_amount : Int
  discount_amount : Int
  total_amount : Int
  shipping_address : Option String
  billing_address : Option String
  notes : Option String
  tracking_number : Option String
  created_at : Nat
  updated_at : Nat

/-- A row of the order_items table. -/
structure OrderItemRow where
  id : Nat
  order_id : Nat
  product_id : Nat
  quantity : Int
  price : Int
  size : Option String
  color : Option String

/-- A row of the addresses table. -/
structure AddressRow where
  id : Nat
  user_id : String
  first_name : String
  last_name : String
  address_line_1 : String
  address_line_2 : String
  city : String
  state : String
  postal_code : String
  country : String
  phone : String
  is_default : Bool
  created_at : Nat

/-- The database state, with the auto-increment counters. -/
structure DB where
  products : List ProductRow
  orders : List OrderRow
  order_items : List OrderItemRow
  addresses : List AddressRow
  nextOrderId : Nat
  nextOrderItemId : Nat
  nextAddressId : Nat

/-- Is the first list a prefix of the second. -/
def listIsPre : List Char → List Char → Bool
  | [], _ => true
  | _ :: _, [] => false
  | c :: cs, d :: ds => c == d && listIsPre cs ds

/-- getUserFromToken: requires the header to be present and carry the
"Bearer " scheme, then verifies the token via the external jwt library,
modelled by the `verify` parameter; any failure yields none (the try/catch
in the source maps jwt.verify exceptions to null, so nothing escapes). -/
def getUserFromToken (verify : String → Option TokenPayload) (auth : Option String) :
    Option AuthUser :=
  match auth with
  | none => none
  | some h =>
    if listIsPre "Bearer ".data h.data then
      match verify (String.mk (h.data.drop 7)) with
      | some p => some ⟨p.userId, p.email⟩
      | none => none
    else none

/-- An HTTP response: status code and JSON body. -/
structure Resp where
  status : Nat
  body : Json

/-- The body shape of simple error responses. -/
def errBody (msg : String) : Json := .obj [("error", .str msg)]

/-- The uniform 401 response. -/
def unauthorized : Resp := ⟨401, errBody "Unauthorized"⟩

/-- The generic 500 response produced at the handler boundary. -/
def serverError : Resp := ⟨500, errBody "Internal server error"⟩

/-- Truthiness of a possibly-absent JavaScript value. -/
def jsTruthy : Option Json → Bool
  | none => false
  | some j => j.truthy

/-- Truthiness of a possibly-absent string (absent and empty are falsy). -/
def strTruthy : Option String → Bool
  | none => false
  | some s => s != ""

/-- JavaScript `x || null` on string fields: empty and absent become null. -/
def orNull (s : Option String) : Option String :=
  match s with
  | none => none
  | some s => if s = "" then none else some s

/-- One element of the `items` array of an order-creation request.  The
model types the fields the handler reads from each item. -/
structure OrderItemReq where
  product_id : Nat
  product_name : String
  color : String
  size : String
  quantity : Int
  price : Int

/-- Body of POST /orders.  `items` is `some` exactly when the field is
present and is an array; `total`, `customer_email`, `user_id` and
`shipping_address` may be arbitrary JSON values. -/
structure OrdersPostBody where
  user_id : Option Json
  items : Option (List OrderItemReq)
  total : Option Json
  customer_email : Option Json
  shipping_address : Option Json
  payment_method : Option String
  payment_screenshot : Option String
  status : Option String

/-- A request to the orders POST endpoint. -/
structure OrdersPostRequest where
  auth : Option String
  body : OrdersPostBody

/-- Body of PUT /orders. -/
structure OrdersPutBody where
  status : Option String
  tracking_number : Option String

/-- A request to the orders PUT endpoint; `id` is the query parameter,
already read into the row-id domain (none models absent or empty). -/
structure OrdersPutRequest where
  auth : Option String
  id : Option Nat
  body : OrdersPutBody

/-- SELECT variants, stock_quantity FROM products WHERE id = ?. -/
def findProduct (db : DB) (pid : Nat) : Option ProductRow :=
  db.products.find? (fun p => p.id == pid)

/-- The parsed variants mapping of a product: a null or empty column and any
parse failure are swallowed and become the empty mapping. -/
def parsedVariants (p : ProductRow) : Json :=
  match p.variants with
  | none => Json.obj []
  | some s =>
    if s = "" then Json.obj []
    else
      match parseJsonTop s with
      | some j => j
      | none => Json.obj []

/-- Numeric reading of a string made of an optional minus sign and decimal
digits; other shapes get no numeric value.  (JavaScript additionally reads
floats and whitespace, which never occur at the call sites of the model.) -/
def strAsNum (s : String) : Option Int :=
  match s.data with
  | [] => none
  | c :: rest =>
    if c = '-' then
      match takeDigits rest with
      | (ds, []) => if ds.isEmpty then none else some (-(digitsToNat ds : Int))
      | _ => none
    else
      match takeDigits (c :: rest) with
      | (ds, []) => if ds.isEmpty then none else some ((digitsToNat ds : Nat) : Int)
      | _ => none

/-- The JavaScript value `variants[color]?.[size] || 0`. -/
def variantStock (variants : Json) (color sz : String) : Json :=
  match variants.getField color with
  | none => .num 0
  | some inner =>
    match inner.getField sz with
    | none => .num 0
    | some v => if v.truthy then v else .num 0

/-- JavaScript `<` between the available-stock value and the requested
quantity.  Primitives coerce numerically; arrays and objects (which coerce
through strings, in practice to NaN) are modelled as incomparable. -/
def jsLtNum (v : Json) (q : Int) : Bool :=
  match v with
  | .num n => n < q
  | .str s =>
    match strAsNum s with
    | some n => n < q
    | none => false
  | .bool b => (if b then (1 : Int) else 0) < q
  | .null => 0 < q
  | _ => false

/-- Rendering of a JSON value inside a template literal (the shapes the
handlers actually interpolate). -/
def jsShow (v : Json) : String :=
  match v with
  | .num n => intToString n
  | .str s => s
  | .bool true => "true"
  | .bool false => "false"
  | .null => "null"
  | _ => ""

/-- The 400 body reported for an insufficient-stock item, carrying the
specific product, color, size, available and requested detail. -/
def insufficientBody (it : OrderItemReq) (avail : Json) : Json :=
  .obj [("error", .str "Insufficient stock"),
        ("message", .str ("Only " ++ jsShow avail ++ " items available for "
          ++ it.product_name ++ " (" ++ it.color ++ ", " ++ it.size ++ ")")),
        ("product", .str it.product_name),
        ("color", .str it.color),
        ("size", .str it.size),
        ("availableStock", avail),
        ("requestedQuantity", .num it.quantity)]

/-- The 400 body for an unknown product id. -/
def productNotFoundBody (it : OrderItemReq) : Json :=
  .obj [("error", .str ("Product not found: " ++ it.product_name))]

/-- The available-stock value the handler computes for one item. -/
def availOf (db : DB) (it : OrderItemReq) : Json :=
  match findProduct db it.product_id with
  | none => .num 0
  | some p => variantStock (parsedVariants p) it.color it.size

/-- Result of the per-item stock check. -/
inductive StockCheck where
  | ok
  | notFound
  | insufficient (avail : Json)

/-- The stock pre-check for one item. -/
def checkItem (db : DB) (it : OrderItemReq) : StockCheck :=
  match findProduct db it.product_id with
  | none => .notFound
  | some p =>
    let v := variantStock (parsedVariants p) it.color it.size
    if jsLtNum v it.quantity then .insufficient v else .ok

/-- The stock-validation loop: the 400 response of the first failing item,
or none when every item passes. -/
def validateStock (db : DB) : List OrderItemReq → Option Resp
  | [] => none
  | it :: rest =>
    match checkItem db it with
    | .ok => validateStock db rest
    | .notFound => some ⟨400, productNotFoundBody it⟩
    | .insufficient v => some ⟨400, insufficientBody it v⟩

/-- One call to the external stock-adjustment endpoint: the body fields and
the forwarded Authorization header value. -/
structure StockCall where
  product_id : Nat
  color : String
  size : String
  quantity : Int
  auth : String

/-- Reply of the stock-adjustment collaborator. -/
structure CollabReply where
  ok : Bool
  message : Option String

/-- The collaborator is an arbitrary stateful function: it may read and
update the database, since the real endpoint decrements the products table. -/
def Collab : Type := DB → StockCall → CollabReply × DB

/-- The call the handler issues for one item: the same color, size and
quantity, forwarding the Authorization header (empty string when absent). -/
def mkStockCall (auth : Option String) (it : OrderItemReq) : StockCall :=
  ⟨it.product_id, it.color, it.size, it.quantity, auth.getD ""⟩

/-- The 400 body built from a failed stock adjustment, carrying the
collaborator message when truthy and a fallback otherwise. -/
def stockFailBody (it : OrderItemReq) (m : Option String) : Json :=
  .obj [("error", .str "Stock update failed"),
        ("message", .str (match m with
          | some s => if s = "" then "Failed to update stock for " ++ it.product_name else s
          | none => "Failed to update stock for " ++ it.product_name)),
        ("product", .str it.product_name)]

/-- The stock-reduction loop: one collaborator call per item in order,
stopping at the first non-OK reply; returns the final database exactly as
the collaborator left it, the trace of issued calls, and the failure
response when a call was refused. -/
def runStockCalls (collab : Collab) (auth : Option String) (db : DB) :
    List OrderItemReq → DB × List StockCall × Option Resp
  | [] => (db, [], none)
  | it :: rest =>
    let call := mkStockCall auth it
    let (reply, db1) := collab db call
    if reply.ok then
      let (db2, tr, r) := runStockCalls collab auth db1 rest
      (db2, call :: tr, r)
    else (db1, [call], some ⟨400, stockFailBody it reply.message⟩)

/-- Driver value of a numeric column: a number normally, its decimal string
when the driver returns numeric columns as strings. -/
def driverNum (strMode : Bool) (n : Int) : Json :=
  if strMode then .str (intToString n) else .num n

/-- JSON value of a nullable text column. -/
def optStrJson : Option String → Json
  | none => .null
  | some s => .str s

/-- JavaScript Number() on the values occurring at the coercion sites (a
non-numeric string gives NaN in JavaScript; the model never evaluates that
case and folds it to zero). -/
def jsNumber (j : Json) : Json :=
  match j with
  | .num n => .num n
  | .str s =>
    match strAsNum s with
    | some n => .num n
    | none => .num 0
  | .bool b => .num (if b then 1 else 0)
  | .null => .num 0
  | _ => .num 0

/-- The driver row of SELECT * FROM orders, as a JSON field list. -/
def orderRowFields (strMode : Bool) (o : OrderRow) : List (String × Json) :=
  [("id", .num (o.id : Int)),
   ("user_id", optStrJson o.user_id),
   ("order_number", .str o.order_number),
   ("status", .str o.status),
   ("payment_status", .str o.payment_status),
   ("payment_method", optStrJson o.payment_method),
   ("payment_screenshot", optStrJson o.payment_screenshot),
   ("subtotal", driverNum strMode o.subtotal),
   ("tax_amount", driverNum strMode o.tax_amount),
   ("shipping_amount", driverNum strMode o.shipping_amount),
   ("discount_amount", driverNum strMode o.discount_amount),
   ("total_amount", driverNum strMode o.total_amount),
   ("shipping_address", optStrJson o.shipping_address),
   ("billing_address", optStrJson o.billing_address),
   ("notes", optStrJson o.notes),
   ("tracking_number", optStrJson o.tracking_number),
   ("created_at", .str (intToString (o.created_at : Int))),
   ("updated_at", .str (intToString (o.updated_at : Int)))]

/-- The driver row of SELECT * FROM order_items, as a JSON object. -/
def orderItemRowJson (strMode : Bool) (r : OrderItemRow) : Json :=
  .obj [("id", .num (r.id : Int)),
        ("order_id", .num (r.order_id : Int)),
        ("product_id", .num (r.product_id : Int)),
        ("quantity", driverNum strMode r.quantity),
        ("price", driverNum strMode r.price),
        ("size", optStrJson r.size),
        ("color", optStrJson r.color)]

/-- The expression `row.shipping_address ? JSON.parse(row.shipping_address) : null`;
a parse failure throws, which the handler boundary turns into the 500
response, modelled as the error case. -/
def parseShippingField (v : Option String) : Except Unit Json :=
  match v with
  | none => .ok .null
  | some s =>
    if s = "" then .ok .null
    else
      match parseJsonTop s with
      | some j => .ok j
      | none => .error ()

/-- The stored status: the destructuring default plus `status || 'pending'`. -/
def storedStatus (s : Option String) : String :=
  match s with
  | none => "pending"
  | some s => if s = "" then "pending" else s

/-- The numeric-column coercion of the value bound to `total`
(`total || 0` inserted into the total_amount column). -/
def storedTotal (total : Option Json) : Int :=
  match total with
  | some j =>
    if j.truthy then
      match j with
      | .num n => n
      | .str s => (strAsNum s).getD 0
      | .bool _ => 1
      | _ => 0
    else 0
  | none => 0

/-- The JavaScript value `shipping_address || {}`. -/
def shipStoredVal (sa : Option Json) : Json :=
  match sa with
  | some j => if j.truthy then j else .obj []
  | none => .obj []

/-- The stored shipping_address text: JSON.stringify(shipping_address || {}). -/
def storedShipping (sa : Option Json) : String :=
  jsonStringify (shipStoredVal sa)

/-- The order row inserted by the POST handler. -/
def newOrderRow (now : Nat) (oid : Nat) (uid : Option String) (b : OrdersPostBody) : OrderRow :=
  { id := oid
    user_id := uid
    order_number := String.mk ('G' :: 'K' :: natChars now)
    status := storedStatus b.status
    payment_status := ""
    payment_method := orNull b.payment_method
    payment_screenshot := orNull b.payment_screenshot
    subtotal := 0
    tax_amount := 0
    shipping_amount := 0
    discount_amount := 0
    total_amount := storedTotal b.total
    shipping_address := some (storedShipping b.shipping_address)
    billing_address := none
    notes := none
    tracking_number := none
    created_at := now
    updated_at := now }

/-- Insert one order_items row per item, in order (empty size or color is
stored as null, `item.size || null`). -/
def insertItems (db : DB) (oid : Nat) : List OrderItemReq → DB
  | [] => db
  | it :: rest =>
    let row : OrderItemRow :=
      { id := db.nextOrderItemId
        order_id := oid
        product_id := it.product_id
        quantity := it.quantity
        price := it.price
        size := orNull (some it.size)
        color := orNull (some it.color) }
    insertItems { db with order_items := db.order_items ++ [row],
                          nextOrderItemId := db.nextOrderItemId + 1 } oid rest

/-- Result of an order-creation request: response, final database, and the
trace of stock-adjustment calls issued. -/
structure PostResult where
  resp : Resp
  db : DB
  calls : List StockCall

/-- POST /orders, the authenticated variant: auth check, body validation,
stock pre-check over every item, then the stock-reduction calls, the order
and line-item inserts, and the refetch of the stored rows. -/
def ordersPOST (verify : String → Option TokenPayload) (collab : Collab) (strMode : Bool)
    (now : Nat) (db : DB) (req : OrdersPostRequest) : PostResult :=
  match getUserFromToken verify req.auth with
  | none => ⟨unauthorized, db, []⟩
  | some user =>
    match req.body.items with
    | none => ⟨⟨400, errBody "Order items are required"⟩, db, []⟩
    | some items =>
      if items.isEmpty then ⟨⟨400, errBody "Order items are required"⟩, db, []⟩
      else if !(jsTruthy req.body.total && jsTruthy req.body.customer_email) then
        ⟨⟨400, errBody "Total amount and customer email are required"⟩, db, []⟩
      else
        match validateStock db items with
        | some r => ⟨r, db, []⟩
        | none =>
          match runStockCalls collab req.auth db items with
          | (db1, calls, some r) => ⟨r, db1, calls⟩
          | (db1, calls, none) =>
            let oid := db1.nextOrderId
            let row := newOrderRow now oid (some user.id) req.body
            let db2 := { db1 with orders := db1.orders ++ [row], nextOrderId := oid + 1 }
            let db3 := insertItems db2 oid items
            match db3.orders.find? (fun o => o.id == oid) with
            | none => ⟨serverError, db3, calls⟩
            | some o =>
              let itemsRows := db3.order_items.filter (fun r => r.order_id == oid)
              match parseShippingField o.shipping_address with
              | .error _ => ⟨serverError, db3, calls⟩
              | .ok ship =>
                let fields := setField (orderRowFields strMode o) "shipping_address" ship
                let body := Json.obj (fields
                  ++ [("items", .arr (itemsRows.map (orderItemRowJson strMode)))])
                ⟨⟨201, body⟩, db3, calls⟩

/-- Insert into a list sorted by created_at descending. -/
def insertByCreatedDesc (o : OrderRow) : List OrderRow → List OrderRow
  | [] => [o]
  | x :: xs =>
    if o.created_at ≤ x.created_at then x :: insertByCreatedDesc o xs
    else o :: x :: xs

/-- ORDER BY created_at DESC. -/
def sortByCreatedDesc (l : List OrderRow) : List OrderRow :=
  l.foldr insertByCreatedDesc []

/-- One listing entry of GET /orders: the selected columns, numeric coercion
via Number(), shipping-address parsing (throwing on bad stored data), and
the product join for the line items (an inner join, so items whose product
row is missing drop out). -/
def orderGetEntry (strMode : Bool) (db : DB) (o : OrderRow) : Except Unit Json :=
  match parseShippingField o.shipping_address with
  | .error _ => .error ()
  | .ok ship =>
    let itemsRows := db.order_items.filter (fun r => r.order_id == o.id)
    let items := itemsRows.filterMap (fun r =>
      (findProduct db r.product_id).map (fun p =>
        Json.obj [("id", .num (r.id : Int)),
                  ("quantity", jsNumber (driverNum strMode r.quantity)),
                  ("price", jsNumber (driverNum strMode r.price)),
                  ("size", optStrJson r.size),
                  ("color", optStrJson r.color),
                  ("name", .str p.name),
                  ("brand", .str p.brand),
                  ("image_url", optStrJson p.image_url)]))
    .ok (Json.obj
      [("id", .num (o.id : Int)),
       ("order_number", .str o.order_number),
       ("status", .str o.status),
       ("payment_status", .str o.payment_status),
       ("payment_method", optStrJson o.payment_method),
       ("subtotal", jsNumber (driverNum strMode o.subtotal)),
       ("tax_amount", jsNumber (driverNum strMode o.tax_amount)),
       ("shipping_amount", jsNumber (driverNum strMode o.shipping_amount)),
       ("discount_amount", jsNumber (driverNum strMode o.discount_amount)),
       ("total", jsNumber (driverNum strMode o.total_amount)),
       ("shipping_address", ship),
       ("billing_address", optStrJson o.billing_address),
       ("notes", optStrJson o.notes),
       ("created_at", .str (intToString (o.created_at : Int))),
       ("updated_at", .str (intToString (o.updated_at : Int))),
       ("items", .arr items)])

/-- Sequencing of the per-order entries (any thrown error aborts the whole
request, giving the 500 handler-boundary response). -/
def exceptList : List (Except Unit Json) → Except Unit (List Json)
  | [] => .ok []
  | .error e :: _ => .error e
  | .ok a :: rest =>
    match exceptList rest with
    | .ok l => .ok (a :: l)
    | .error e => .error e

/-- GET /orders, the variant with item hydration and numeric coercion. -/
def ordersGET (verify : String → Option TokenPayload) (strMode : Bool) (db : DB)
    (auth : Option String) : Resp :=
  match getUserFromToken verify auth with
  | none => unauthorized
  | some user =>
    let mine := sortByCreatedDesc (db.orders.filter (fun o => o.user_id == some user.id))
    match exceptList (mine.map (orderGetEntry strMode db)) with
    | .ok entries => ⟨200, .arr entries⟩
    | .error _ => serverError

/-- The row update applied by UPDATE orders ... WHERE id = ? AND user_id = ?. -/
def applyOrderUpdate (now : Nat) (st : String) (tr : Option String) (oid : Nat)
    (uid : String) (o : OrderRow) : OrderRow :=
  if o.id == oid && o.user_id == some uid then
    { o with status := st, tracking_number := tr, updated_at := now }
  else o

/-- PUT /orders: requires the id query parameter and a truthy status; updates
status, tracking_number and updated_at on the rows matching both the id and
the caller; 404 when zero rows were affected; then refetches the row. -/
def ordersPUT (verify : String → Option TokenPayload) (strMode : Bool) (now : Nat)
    (db : DB) (req : OrdersPutRequest) : Resp × DB :=
  match getUserFromToken verify req.auth with
  | none => (unauthorized, db)
  | some user =>
    match req.id with
    | none => (⟨400, errBody "Order ID is required"⟩, db)
    | some oid =>
      if !(strTruthy req.body.status) then (⟨400, errBody "Status is required"⟩, db)
      else
        let st := (req.body.status).getD ""
        let trv := orNull req.body.tracking_number
        let affected :=
          (db.orders.filter (fun o => o.id == oid && o.user_id == some user.id)).length
        let db1 := { db with
          orders := db.orders.map (applyOrderUpdate now st trv oid user.id) }
        if affected == 0 then (⟨404, errBody "Order not found or unauthorized"⟩, db1)
        else
          match db1.orders.find? (fun o => o.id == oid && o.user_id == some user.id) with
          | none => (⟨404, errBody "Order not found"⟩, db1)
          | some o =>
            match parseShippingField o.shipping_address with
            | .error _ => (serverError, db1)
            | .ok ship =>
              let fields := setField (orderRowFields strMode o) "shipping_address" ship
              (⟨200, Json.obj (fields ++ [("items", .arr [])])⟩, db1)

/-- GET /orders in the second route file: the raw SELECT * rows are returned
with no numeric coercion and no shipping-address parsing. -/
def routeOrdersGET (verify : String → Option TokenPayload) (strMode : Bool) (db : DB)
    (auth : Option String) : Resp :=
  match getUserFromToken verify auth with
  | none => unauthorized
  | some user =>
    let mine := sortByCreatedDesc (db.orders.filter (fun o => o.user_id == some user.id))
    ⟨200, .arr (mine.map (fun o => Json.obj (orderRowFields strMode o)))⟩

/-- The user_id column value stored by the unauthenticated POST variant:
the client-supplied body value, null when falsy (`user_id || null`). -/
def jsUserId : Option Json → Option String
  | none => none
  | some j => if j.truthy then some (jsShow j) else none

/-- POST /orders in the second route file: there is no authentication check;
the body is processed directly and the client-supplied user_id is trusted.
The flow is otherwise that of the authenticated variant, without the
payment_screenshot column in the INSERT. -/
def routeOrdersPOST (collab : Collab) (strMode : Bool) (now : Nat) (db : DB)
    (req : OrdersPostRequest) : PostResult :=
  match req.body.items with
  | none => ⟨⟨400, errBody "Order items are required"⟩, db, []⟩
  | some items =>
    if items.isEmpty then ⟨⟨400, errBody "Order items are required"⟩, db, []⟩
    else if !(jsTruthy req.body.total && jsTruthy req.body.customer_email) then
      ⟨⟨400, errBody "Total amount and customer email are required"⟩, db, []⟩
    else
      match validateStock db items with
      | some r => ⟨r, db, []⟩
      | none =>
        match runStockCalls collab req.auth db items with
        | (db1, calls, some r) => ⟨r, db1, calls⟩
        | (db1, calls, none) =>
          let oid := db1.nextOrderId
          let row := { newOrderRow now oid (jsUserId req.body.user_id) req.body with
                        payment_screenshot := none }
          let db2 := { db1 with orders := db1.orders ++ [row], nextOrderId := oid + 1 }
          let db3 := insertItems db2 oid items
          match db3.orders.find? (fun o => o.id == oid) with
          | none => ⟨serverError, db3, calls⟩
          | some o =>
            let itemsRows := db3.order_items.filter (fun r => r.order_id == oid)
            match parseShippingField o.shipping_address with
            | .error _ => ⟨serverError, db3, calls⟩
            | .ok ship =>
              let fields := setField (orderRowFields strMode o) "shipping_address" ship
              let body := Json.obj (fields
                ++ [("items", .arr (itemsRows.map (orderItemRowJson strMode)))])
              ⟨⟨201, body⟩, db3, calls⟩

/-- PUT /orders in the second route file is line-for-line the same handler
as the first variant. -/
def routeOrdersPUT := ordersPUT

/-- Body of the address create/update endpoints. -/
structure AddressBody where
  id : Option Nat
  address_line_1 : Option String
  address_line_2 : Option String
  city : Option String
  state : Option String
  postal_code : Option String
  country : Option String
  first_name : Option String
  last_name : Option String
  phone : Option String
  is_default : Option Json

/-- A request to the addresses endpoints (`queryId` is the id query
parameter used by DELETE). -/
structure AddressRequest where
  auth : Option String
  queryId : Option Nat
  body : AddressBody

/-- The driver row of an address, as a JSON object. -/
def addressRowJson (a : AddressRow) : Json :=
  .obj [("id", .num (a.id : Int)),
        ("user_id", .str a.user_id),
        ("first_name", .str a.first_name),
        ("last_name", .str a.last_name),
        ("address_line_1", .str a.address_line_1),
        ("address_line_2", .str a.address_line_2),
        ("city", .str a.city),
        ("state", .str a.state),
        ("postal_code", .str a.postal_code),
        ("country", .str a.country),
        ("phone", .str a.phone),
        ("is_default", .num (if a.is_default then 1 else 0)),
        ("created_at", .str (intToString (a.created_at : Int)))]

/-- UPDATE addresses SET is_default = 0 WHERE user_id = ?. -/
def clearDefaults (db : DB) (uid : String) : DB :=
  { db with addresses := db.addresses.map (fun a =>
      if a.user_id == uid then { a with is_default := false } else a) }

/-- UPDATE addresses SET is_default = 0 WHERE user_id = ? AND id != ?. -/
def clearOtherDefaults (db : DB) (uid : String) (aid : Nat) : DB :=
  { db with addresses := db.addresses.map (fun a =>
      if a.user_id == uid && a.id != aid then { a with is_default := false } else a) }

/-- The four required address fields are present and truthy. -/
def addrRequired (b : AddressBody) : Bool :=
  strTruthy b.address_line_1 && strTruthy b.city && strTruthy b.first_name &&
    strTruthy b.last_name

/-- The stored country column: `country || 'Philippines'`. -/
def storedCountry (c : Option String) : String :=
  match c with
  | some s => if s = "" then "Philippines" else s
  | none => "Philippines"

/-- POST /addresses: auth, required fields, clearing of the existing
defaults when the new row is default, insert, refetch by insertId. -/
def addressesPOST (verify : String → Option TokenPayload) (now : Nat) (db : DB)
    (req : AddressRequest) : Resp × DB :=
  match getUserFromToken verify req.auth with
  | none => (unauthorized, db)
  | some user =>
    if !(addrRequired req.body) then
      (⟨400, errBody "Address line 1, city, first name, and last name are required"⟩, db)
    else
      let db1 := if jsTruthy req.body.is_default then clearDefaults db user.id else db
      let row : AddressRow :=
        { id := db1.nextAddressId
          user_id := user.id
          first_name := (req.body.first_name).getD ""
          last_name := (req.body.last_name).getD ""
          address_line_1 := (req.body.address_line_1).getD ""
          address_line_2 := (req.body.address_line_2).getD ""
          city := (req.body.city).getD ""
          state := (req.body.state).getD ""
          postal_code := (req.body.postal_code).getD ""
          country := storedCountry req.body.country
          phone := (req.body.phone).getD ""
          is_default := jsTruthy req.body.is_default
          created_at := now }
      let db2 := { db1 with addresses := db1.addresses ++ [row],
                            nextAddressId := db1.nextAddressId + 1 }
      match db2.addresses.find? (fun a => a.id == row.id) with
      | some r => (⟨201, addressRowJson r⟩, db2)
      | none => (⟨201, .null⟩, db2)

/-- The row update applied by the address UPDATE statement: every column is
overwritten, is_default with the truthiness of the supplied value. -/
def applyAddressUpdate (b : AddressBody) (aid : Nat) (uid : String)
    (a : AddressRow) : AddressRow :=
  if a.id == aid && a.user_id == uid then
    { a with
      first_name := (b.first_name).getD ""
      last_name := (b.last_name).getD ""
      address_line_1 := (b.address_line_1).getD ""
      address_line_2 := (b.address_line_2).getD ""
      city := (b.city).getD ""
      state := (b.state).getD ""
      postal_code := (b.postal_code).getD ""
      country := storedCountry b.country
      phone := (b.phone).getD ""
      is_default := jsTruthy b.is_default }
  else a

/-- PUT /addresses: auth, body id and required fields, ownership check,
clearing of the other defaults when the updated row is default, the update,
the zero-affected-rows check, then refetch. -/
def addressesPUT (verify : String → Option TokenPayload) (db : DB)
    (req : AddressRequest) : Resp × DB :=
  match getUserFromToken verify req.auth with
  | none => (unauthorized, db)
  | some user =>
    match req.body.id with
    | none => (⟨400, errBody "Address ID is required"⟩, db)
    | some aid =>
      if !(addrRequired req.body) then
        (⟨400, errBody "Address line 1, city, first name, and last name are required"⟩, db)
      else
        match db.addresses.find? (fun a => a.id == aid && a.user_id == user.id) with
        | none => (⟨404, errBody "Address not found"⟩, db)
        | some _ =>
          let db1 := if jsTruthy req.body.is_default
            then clearOtherDefaults db user.id aid else db
          let affected :=
            (db1.addresses.filter (fun a => a.id == aid && a.user_id == user.id)).length
          let db2 := { db1 with
            addresses := db1.addresses.map (applyAddressUpdate req.body aid user.id) }
          if affected == 0 then (⟨404, errBody "Address not found or unauthorized"⟩, db2)
          else
            match db2.addresses.find? (fun a => a.id == aid && a.user_id == user.id) with
            | some r => (⟨200, addressRowJson r⟩, db2)
            | none => (⟨200, .null⟩, db2)

/-- DELETE /addresses?id=: deletes the row only when owned by the caller;
404 when nothing was removed. -/
def addressesDELETE (verify : String → Option TokenPayload) (db : DB)
    (req : AddressRequest) : Resp × DB :=
  match getUserFromToken verify req.auth with
  | none => (unauthorized, db)
  | some user =>
    match req.queryId with
    | none => (⟨400, errBody "Address ID is required"⟩, db)
    | some aid =>
      let affected :=
        (db.addresses.filter (fun a => a.id == aid && a.user_id == user.id)).length
      let db1 := { db with addresses := db.addresses.filter (fun a =>
        !(a.id == aid && a.user_id == user.id)) }
      if affected == 0 then (⟨404, errBody "Address not found or unauthorized"⟩, db1)
      else (⟨200, .obj [("message", .str "Address deleted successfully")]⟩, db1)

/-- Insert into a list sorted is_default-first, then created_at descending. -/
def insertByAddrOrder (a : AddressRow) : List AddressRow → List AddressRow
  | [] => [a]
  | x :: xs =>
    if (x.is_default && !a.is_default)
        || (x.is_default == a.is_default && a.created_at ≤ x.created_at) then
      x :: insertByAddrOrder a xs
    else a :: x :: xs

/-- GET /addresses: all rows of the caller, default first, then newest. -/
def addressesGET (verify : String → Option TokenPayload) (db : DB)
    (auth : Option String) : Resp :=
  match getUserFromToken verify auth with
  | none => unauthorized
  | some user =>
    let mine := (db.addresses.filter (fun a => a.user_id == user.id)).foldr insertByAddrOrder []
    ⟨200, .arr (mine.map addressRowJson)⟩

/-- The number of default addresses a user has. -/
def countDefaults (db : DB) (uid : String) : Nat :=
  (db.addresses.filter (fun a => a.user_id == uid && a.is_default)).length

/-- Does the stock pre-check refuse this item for insufficient stock. -/
def failsCheck (db : DB) (it : OrderItemReq) : Bool :=
  match checkItem db it with
  | .insufficient _ => true
  | _ => false

/-- Is the pre-check of this item a product-not-found failure. -/
def notFoundCheck (db : DB) (it : OrderItemReq) : Bool :=
  match checkItem db it with
  | .notFound => true
  | _ => false

/-- Does the stored shipping-address column of this row parse. -/
def shippingParses (o : OrderRow) : Bool :=
  match parseShippingField o.shipping_address with
  | .ok _ => true
  | .error _ => false

/-- A concrete verifier accepting exactly one token. -/
def demoVerify : String → Option TokenPayload :=
  fun t => if t = "tok1" then some ⟨"u1", "u1@mail"⟩ else none

/-- A collaborator accepting every adjustment and leaving the database
unchanged. -/
def collabOk : Collab := fun db _ => (⟨true, none⟩, db)

/-- A collaborator refusing every adjustment. -/
def collabRefuse : Collab := fun db _ => (⟨false, some "out of stock"⟩, db)

/-- A concrete shipping address object. -/
def demoShip : Json := Json.obj [("city", Json.str "Manila")]

/-- A concrete product with five units of stock for red/M. -/
def demoProduct : ProductRow :=
  { id := 1, name := "Shoe", brand := "GK", image_url := none,
    variants := some (jsonStringify (Json.obj [("red", Json.obj [("M", Json.num 5)])])),
    stock_quantity := 5 }

/-- A concrete product whose stored variants text is not JSON. -/
def demoProductBad : ProductRow :=
  { demoProduct with id := 2, variants := some "notjson" }

/-- A concrete database with the two products and no orders. -/
def demoDB : DB :=
  { products := [demoProduct, demoProductBad], orders := [], order_items := [],
    addresses := [], nextOrderId := 10, nextOrderItemId := 20, nextAddressId := 30 }

/-- A concrete order item within stock. -/
def demoItem : OrderItemReq :=
  { product_id := 1, product_name := "Shoe", color := "red", size := "M",
    quantity := 2, price := 500 }

/-- A concrete order item exceeding the available stock. -/
def demoItemBig : OrderItemReq := { demoItem with quantity := 9 }

/-- An item whose product has unparseable variants. -/
def demoItemBad : OrderItemReq := { demoItem with product_id := 2 }

/-- A concrete valid POST /orders body. -/
def demoPostBody : OrdersPostBody :=
  { user_id := some (Json.str "u9"), items := some [demoItem],
    total := some (Json.num 1000), customer_email := some (Json.str "a@b.com"),
    shipping_address := some demoShip, payment_method := none,
    payment_screenshot := none, status := none }

/-- The valid body sent with a valid bearer token. -/
def demoPostReq : OrdersPostRequest := { auth := some "Bearer tok1", body := demoPostBody }

/-- The valid body sent with no Authorization header at all. -/
def demoPostNoAuth : OrdersPostRequest := { auth := none, body := demoPostBody }

/-- The valid body but with an item exceeding stock. -/
def demoPostReqBig : OrdersPostRequest :=
  { demoPostReq with body := { demoPostBody with items := some [demoItemBig] } }

/-- The valid body but with a present, zero total. -/
def demoPostReqZero : OrdersPostRequest :=
  { demoPostReq with body := { demoPostBody with total := some (Json.num 0) } }

/-- A concrete stored order row owned by a different user. -/
def demoOrderRow : OrderRow :=
  { id := 7, user_id := some "u2", order_number := "GK1", status := "pending",
    payment_status := "", payment_method := none, payment_screenshot := none,
    subtotal := 0, tax_amount := 0, shipping_amount := 0, discount_amount := 0,
    total_amount := 900, shipping_address := some (jsonStringify demoShip),
    billing_address := none, notes := none, tracking_number := none,
    created_at := 3, updated_at := 3 }

/-- The demo database plus the foreign-owned order. -/
def demoOrderDB : DB := { demoDB with orders := [demoOrderRow] }

/-- PUT /orders request of caller u1 against order 7 owned by u2. -/
def demoPutReq : OrdersPutRequest :=
  { auth := some "Bearer tok1", id := some 7,
    body := { status := some "shipped", tracking_number := none } }

/-- A stored default address of user u1. -/
def demoAddrRow1 : AddressRow :=
  { id := 1, user_id := "u1", first_name := "A", last_name := "B",
    address_line_1 := "L1", address_line_2 := "", city := "QC", state := "",
    postal_code := "", country := "Philippines", phone := "", is_default := true,
    created_at := 5 }

/-- A second stored default address of user u1 (two defaults at once). -/
def demoAddrRow2 : AddressRow := { demoAddrRow1 with id := 2 }

/-- The demo database plus the two default addresses. -/
def demoAddrDB : DB := { demoDB with addresses := [demoAddrRow1, demoAddrRow2] }

/-- A valid address body targeting row 1, asking for the default flag. -/
def demoAddrBody : AddressBody :=
  { id := some 1, address_line_1 := some "L1", address_line_2 := none,
    city := some "QC", state := none, postal_code := none, country := none,
    first_name := some "A", last_name := some "B", phone := none,
    is_default := some (Json.bool true) }

/-- The same body without the is_default field. -/
def demoAddrBodyNoDflt : AddressBody := { demoAddrBody with is_default := none }

/-- Address create request (default requested). -/
def demoAddrReq : AddressRequest :=
  { auth := some "Bearer tok1", queryId := none, body := demoAddrBody }

/-- Address update request without is_default. -/
def demoAddrReqNoDflt : AddressRequest :=
  { auth := some "Bearer tok1", queryId := none, body := demoAddrBodyNoDflt }

/-- A non-default stored address of user u1. -/
def demoAddrRow3 : AddressRow := { demoAddrRow1 with id := 3, is_default := false }

/-- A database where u1 has exactly one default address (row 1). -/
def demoAddrOneDfltDB : DB := { demoDB with addresses := [demoAddrRow1, demoAddrRow3] }

/-- The order_items rows produced for one order, with consecutive insert ids. -/
def buildItemRows (startId : Nat) (oid : Nat) : List OrderItemReq → List OrderItemRow
  | [] => []
  | it :: rest =>
    { id := startId, order_id := oid, product_id := it.product_id,
      quantity := it.quantity, price := it.price,
      size := orNull (some it.size), color := orNull (some it.color) }
      :: buildItemRows (startId + 1) oid rest

theorem parseJson_succ (f : Nat) (s : List Char) :
    parseJson (f + 1) s = parseValStep (parseArrElems f) (parseObjElems f) s := rfl

theorem parseArrElems_succ (f : Nat) (s : List Char) :
    parseArrElems (f + 1) s = parseArrStep (parseJson f) (parseArrElems f) s := rfl

theorem parseObjElems_succ (f : Nat) (s : List Char) :
    parseObjElems (f + 1) s = parseObjStep (parseJson f) (parseObjElems f) s := rfl

theorem expectChars_append (lit s : List Char) : expectChars lit (lit ++ s) = some s := by
  induction lit with
  | nil => rfl
  | cons c cs ih => simp [expectChars, ih]

theorem isDigitCh_digitChar10 {d : Nat} (h : d < 10) : isDigitCh (digitChar10 d) = true := by
  interval_cases d <;> decide

theorem toNat_digitChar10 {d : Nat} (h : d < 10) : (digitChar10 d).toNat = 48 + d := by
  interval_cases d <;> decide

theorem isDigitCh_toNat {c : Char} (h : isDigitCh c = true) : 48 ≤ c.toNat ∧ c.toNat ≤ 57 := by
  simpa [isDigitCh] using h

theorem digit_ne_of {c : Char} (h : isDigitCh c = true) :
    c ≠ 'n' ∧ c ≠ 't' ∧ c ≠ 'f' ∧ c ≠ '"' ∧ c ≠ '[' ∧ c ≠ lbrace ∧ c ≠ '-' ∧
    c ≠ ']' ∧ c ≠ rbrace ∧ c ≠ ',' ∧ c ≠ ':' ∧ c ≠ '\\' := by
  obtain ⟨h1, h2⟩ := isDigitCh_toNat h
  refine ⟨?_, ?_, ?_, ?_, ?_, ?_, ?_, ?_, ?_, ?_, ?_, ?_⟩ <;>
    (rintro rfl; revert h1 h2; decide)

theorem natChars_props (n : Nat) :
    natChars n ≠ [] ∧ ∀ c ∈ natChars n, isDigitCh c = true := by
  induction n using Nat.strong_induction_on with
  | _ n ih =>
    rw [natChars]
    split
    · rename_i h
      refine ⟨by simp, ?_⟩
      intro c hc
      simp at hc
      subst hc
      exact isDigitCh_digitChar10 h
    · rename_i h
      obtain ⟨hne, hdig⟩ := ih (n / 10) (Nat.div_lt_self (by omega) (by omega))
      refine ⟨by simp [hne], ?_⟩
      intro c hc
      rcases List.mem_append.mp hc with h1 | h1
      · exact hdig c h1
      · simp at h1
        subst h1
        exact isDigitCh_digitChar10 (by omega)

theorem digitsToNat_append_digit (ds : List Char) (c : Char) :
    digitsToNat (ds ++ [c]) = digitsToNat ds * 10 + (c.toNat - 48) := by
  simp [digitsToNat, List.foldl_append]

theorem digitsToNat_natChars (n : Nat) : digitsToNat (natChars n) = n := by
  induction n using Nat.strong_induction_on with
  | _ n ih =>
    rw [natChars]
    split
    · rename_i h
      simp [digitsToNat, toNat_digitChar10 h]
    · rename_i h
      rw [digitsToNat_append_digit, ih (n / 10) (Nat.div_lt_self (by omega) (by omega)),
        toNat_digitChar10 (show n % 10 < 10 by omega)]
      omega

theorem takeDigits_append (ds rest : List Char) (hds : ∀ c ∈ ds, isDigitCh c = true)
    (hr : headNotDigit rest = true) : takeDigits (ds ++ rest) = (ds, rest) := by
  induction ds with
  | nil =>
    simp only [List.nil_append]
    cases rest with
    | nil => rfl
    | cons c r =>
      simp only [headNotDigit, Bool.not_eq_true'] at hr
      simp [takeDigits, hr]
  | cons c ds ih =>
    have hc : isDigitCh c = true := hds c (by simp)
    have ih' := ih (fun x hx => hds x (by simp [hx]))
    simp [takeDigits, hc, ih']

theorem hexVal_hexCh {v : Nat} (h : v < 16) : hexVal (hexCh v) = some v := by
  interval_cases v <;> decide

theorem parseStringChars_escape (cs rest : List Char) :
    parseStringChars (escapeChars cs ++ '"' :: rest) = some (cs, rest) := by
  induction cs with
  | nil =>
    show parseStringChars ('"' :: rest) = _
    rw [parseStringChars.eq_def]
    simp
  | cons c cs ih =>
    show parseStringChars ((escapeChar c ++ escapeChars cs) ++ '"' :: rest) = _
    rw [List.append_assoc]
    by_cases h1 : c = '"'
    · subst h1
      simp only [escapeChar, if_pos rfl, List.cons_append, List.nil_append]
      rw [parseStringChars.eq_def]
      simp [unescapeChar, ih]
    · by_cases h2 : c = '\\'
      · subst h2
        simp only [escapeChar, if_neg h1, if_pos rfl, List.cons_append, List.nil_append]
        rw [parseStringChars.eq_def]
        simp [unescapeChar, ih]
      · by_cases h3 : c.toNat < 32
        · have hv0 : hexVal '0' = some 0 := rfl
          have hv1 : hexVal (hexCh (c.toNat / 16)) = some (c.toNat / 16) :=
            hexVal_hexCh (by omega)
          have hv2 : hexVal (hexCh (c.toNat % 16)) = some (c.toNat % 16) :=
            hexVal_hexCh (by omega)
          simp only [escapeChar, if_neg h1, if_neg h2, if_pos h3, List.cons_append,
            List.nil_append]
          rw [parseStringChars.eq_def]
          simp [hv0, hv1, hv2, ih]
          rw [show c.toNat / 16 * 16 + c.toNat % 16 = c.toNat by omega, Char.ofNat_toNat]
        · simp only [escapeChar, if_neg h1, if_neg h2, if_neg h3, List.cons_append,
            List.nil_append]
          rw [parseStringChars.eq_def]
          simp [h1, h2, ih]

theorem stringifyJson_null : stringifyJson .null = ['n', 'u', 'l', 'l'] := by
  rw [stringifyJson.eq_def]

theorem stringifyJson_true : stringifyJson (.bool true) = ['t', 'r', 'u', 'e'] := by
  rw [stringifyJson.eq_def]

theorem stringifyJson_false : stringifyJson (.bool false) = ['f', 'a', 'l', 's', 'e'] := by
  rw [stringifyJson.eq_def]

theorem stringifyJson_num (n : Int) : stringifyJson (.num n) = intChars n := by
  rw [stringifyJson.eq_def]

theorem stringifyJson_str (s : String) :
    stringifyJson (.str s) = '"' :: (escapeChars s.data ++ ['"']) := by
  rw [stringifyJson.eq_def]

theorem stringifyJson_arr (l : List Json) :
    stringifyJson (.arr l) = '[' :: (stringifyElems l ++ [']']) := by
  rw [stringifyJson.eq_def]

theorem stringifyJson_obj (l : List (String × Json)) :
    stringifyJson (.obj l) = lbrace :: (stringifyFields l ++ [rbrace]) := by
  rw [stringifyJson.eq_def]

theorem stringifyElems_nil : stringifyElems [] = [] := by
  rw [stringifyElems.eq_def]

theorem stringifyElems_single (x : Json) : stringifyElems [x] = stringifyJson x := by
  rw [stringifyElems.eq_def]

theorem stringifyElems_cons2 (x y : Json) (ys : List Json) :
    stringifyElems (x :: y :: ys) = stringifyJson x ++ ',' :: stringifyElems (y :: ys) := by
  rw [stringifyElems.eq_def]

theorem stringifyFields_nil : stringifyFields [] = [] := by
  rw [stringifyFields.eq_def]

theorem stringifyFields_single (k : String) (v : Json) :
    stringifyFields [(k, v)] = '"' :: (escapeChars k.data ++ '"' :: ':' :: stringifyJson v) := by
  rw [stringifyFields.eq_def]

theorem stringifyFields_cons2 (k : String) (v : Json) (q : String × Json)
    (qs : List (String × Json)) :
    stringifyFields ((k, v) :: q :: qs)
      = ('"' :: (escapeChars k.data ++ '"' :: ':' :: stringifyJson v))
          ++ ',' :: stringifyFields (q :: qs) := by
  rw [stringifyFields.eq_def]

theorem needJson_pos (j : Json) : 1 ≤ needJson j := by
  cases j with
  | null => rw [needJson]
  | bool b => rw [needJson]
  | num n => rw [needJson]
  | str s => rw [needJson]
  | arr l => cases l <;> (rw [needJson]; try omega)
  | obj l => cases l <;> (rw [needJson]; try omega)

theorem stringify_head (j : Json) :
    ∃ c cs, stringifyJson j = c :: cs ∧ ¬ c = ']' := by
  cases j with
  | null => exact ⟨'n', _, stringifyJson_null, by decide⟩
  | bool b =>
    cases b
    · exact ⟨'f', ['a', 'l', 's', 'e'], stringifyJson_false, by decide⟩
    · exact ⟨'t', ['r', 'u', 'e'], stringifyJson_true, by decide⟩
  | num n =>
    rw [stringifyJson_num, intChars]
    obtain ⟨hne, hdig⟩ := natChars_props n.natAbs
    obtain ⟨c, cs, hcc⟩ : ∃ c cs, natChars n.natAbs = c :: cs := by
      cases h : natChars n.natAbs with
      | nil => exact absurd h hne
      | cons c cs => exact ⟨c, cs, rfl⟩
    have hc : isDigitCh c = true := hdig c (by rw [hcc]; simp)
    split
    · exact ⟨'-', _, rfl, by decide⟩
    · exact ⟨c, cs, hcc, (digit_ne_of hc).2.2.2.2.2.2.2.1⟩
  | str s => exact ⟨'"', _, stringifyJson_str s, by decide⟩
  | arr l => exact ⟨'[', stringifyElems l ++ [']'], stringifyJson_arr l, by decide⟩
  | obj l => exact ⟨lbrace, stringifyFields l ++ [rbrace], stringifyJson_obj l, by decide⟩

theorem headNotDigit_cons {c : Char} (h : isDigitCh c = false) (r : List Char) :
    headNotDigit (c :: r) = true := by
  simp [headNotDigit, h]

theorem parse_stringify_fuel (fuel : Nat) :
    (∀ j rest, needJson j ≤ fuel → headNotDigit rest = true →
      parseJson fuel (stringifyJson j ++ rest) = some (j, rest)) ∧
    (∀ l rest, l ≠ [] → needElems l ≤ fuel →
      parseArrElems fuel (stringifyElems l ++ ']' :: rest) = some (.arr l, rest)) ∧
    (∀ l rest, l ≠ [] → needFields l ≤ fuel →
      parseObjElems fuel (stringifyFields l ++ rbrace :: rest) = some (.obj l, rest)) := by
  induction fuel with
  | zero =>
    refine ⟨?_, ?_, ?_⟩
    · intro j rest hf _
      exact absurd (le_trans (needJson_pos j) hf) (by omega)
    · intro l rest hne hf
      cases l with
      | nil => exact absurd rfl hne
      | cons x xs =>
        rw [needElems] at hf
        have := needJson_pos x
        omega
    · intro l rest hne hf
      cases l with
      | nil => exact absurd rfl hne
      | cons p ps =>
        obtain ⟨k, v⟩ := p
        rw [needFields] at hf
        have := needJson_pos v
        omega
  | succ f ih =>
    obtain ⟨ihJ, ihA, ihO⟩ := ih
    refine ⟨?_, ?_, ?_⟩
    · intro j rest hf hr
      rw [parseJson_succ]
      cases j with
      | null =>
        rw [stringifyJson_null]
        simp [parseValStep, expectChars]
      | bool b =>
        cases b
        · rw [stringifyJson_false]
          simp [parseValStep, expectChars]
        · rw [stringifyJson_true]
          simp [parseValStep, expectChars]
      | num n =>
        rw [stringifyJson_num]
        obtain ⟨hne, hdig⟩ := natChars_props n.natAbs
        obtain ⟨c, cs, hcc⟩ : ∃ c cs, natChars n.natAbs = c :: cs := by
          cases h : natChars n.natAbs with
          | nil => exact absurd h hne
          | cons c cs => exact ⟨c, cs, rfl⟩
        have hc : isDigitCh c = true := hdig c (by rw [hcc]; simp)
        obtain ⟨d1, d2, d3, d4, d5, d6, d7, d8, d9, d10, d11, d12⟩ := digit_ne_of hc
        have hcs : ∀ x ∈ cs, isDigitCh x = true := fun x hx => hdig x (by rw [hcc]; simp [hx])
        have htd : takeDigits (cs ++ rest) = (cs, rest) := takeDigits_append cs rest hcs hr
        have htdAll : takeDigits (c :: (cs ++ rest)) = (c :: cs, rest) := by
          simp [takeDigits, hc, htd]
        have hval : digitsToNat (c :: cs) = n.natAbs := by
          rw [← hcc, digitsToNat_natChars]
        have hmlb : ¬ ('-' : Char) = lbrace := by decide
        rw [intChars]
        by_cases hn : n < 0
        · rw [if_pos hn, hcc]
          have hminus : (-(digitsToNat (c :: cs) : Int)) = n := by
            rw [hval]; omega
          simp only [List.cons_append]
          simp [parseValStep, htdAll, hminus, hmlb]
        · rw [if_neg hn, hcc]
          have hpos : ((digitsToNat (c :: cs) : Nat) : Int) = n := by
            rw [hval]; omega
          simp only [List.cons_append]
          simp [parseValStep, d1, d2, d3, d4, d5, d6, d7, hc, htd, hpos]
      | str s =>
        rw [stringifyJson_str]
        have hmk : String.mk s.data = s := rfl
        have hps := parseStringChars_escape s.data rest
        simp only [List.cons_append, List.append_assoc, List.nil_append] at hps ⊢
        simp [parseValStep, hps, hmk]
      | arr l =>
        cases l with
        | nil =>
          rw [stringifyJson_arr, stringifyElems_nil]
          simp [parseValStep]
        | cons x xs =>
          rw [stringifyJson_arr]
          obtain ⟨c, cs, hcc, hcne⟩ := stringify_head x
          obtain ⟨tail, htail⟩ : ∃ tail, stringifyElems (x :: xs) = stringifyJson x ++ tail := by
            cases xs with
            | nil => exact ⟨[], by rw [stringifyElems_single]; simp⟩
            | cons y ys => exact ⟨',' :: stringifyElems (y :: ys), stringifyElems_cons2 x y ys⟩
          have hfa : needElems (x :: xs) ≤ f := by
            rw [needJson] at hf
            omega
          have hback : parseArrElems f (c :: (cs ++ (tail ++ ']' :: rest)))
              = some (.arr (x :: xs), rest) := by
            have harg : c :: (cs ++ (tail ++ ']' :: rest))
                = stringifyElems (x :: xs) ++ ']' :: rest := by
              rw [htail, hcc]
              simp
            rw [harg]
            exact ihA (x :: xs) rest (by simp) hfa
          rw [htail, hcc]
          simp only [List.cons_append, List.append_assoc]
          simp [parseValStep, hcne, hback]
      | obj l =>
        have hob1 : ¬ lbrace = 'n' := by decide
        have hob2 : ¬ lbrace = 't' := by decide
        have hob3 : ¬ lbrace = 'f' := by decide
        have hob4 : ¬ lbrace = '"' := by decide
        have hob5 : ¬ lbrace = '[' := by decide
        cases l with
        | nil =>
          rw [stringifyJson_obj, stringifyFields_nil]
          simp [parseValStep, hob1, hob2, hob3, hob4, hob5]
        | cons p ps =>
          obtain ⟨k, v⟩ := p
          rw [stringifyJson_obj]
          have hqb : ¬ ('"' : Char) = rbrace := by decide
          obtain ⟨tail, htail⟩ : ∃ tail,
              stringifyFields ((k, v) :: ps)
                = '"' :: (escapeChars k.data ++ '"' :: ':' :: stringifyJson v) ++ tail := by
            cases ps with
            | nil => exact ⟨[], by rw [stringifyFields_single]; simp⟩
            | cons q qs => exact ⟨',' :: stringifyFields (q :: qs), stringifyFields_cons2 k v q qs⟩
          have hfo : needFields ((k, v) :: ps) ≤ f := by
            rw [needJson] at hf
            omega
          have hback : parseObjElems f
                ('"' :: (escapeChars k.data ++ ('"' :: ':' :: (stringifyJson v
                  ++ (tail ++ rbrace :: rest)))))
              = some (.obj ((k, v) :: ps), rest) := by
            have harg : '"' :: (escapeChars k.data ++ ('"' :: ':' :: (stringifyJson v
                  ++ (tail ++ rbrace :: rest))))
                = stringifyFields ((k, v) :: ps) ++ rbrace :: rest := by
              rw [htail]
              simp
            rw [harg]
            exact ihO ((k, v) :: ps) rest (by simp) hfo
          rw [htail]
          simp only [List.cons_append, List.append_assoc] at hback ⊢
          simp [parseValStep, hob1, hob2, hob3, hob4, hob5, hqb, hback]
    · intro l rest hne hf
      cases l with
      | nil => exact absurd rfl hne
      | cons x xs =>
        rw [needElems] at hf
        have hx := needJson_pos x
        rw [parseArrElems_succ]
        cases xs with
        | nil =>
          rw [stringifyElems_single]
          have h1 : parseJson f (stringifyJson x ++ ']' :: rest) = some (x, ']' :: rest) :=
            ihJ x (']' :: rest) (by omega) (headNotDigit_cons (by decide) _)
          simp [parseArrStep, h1]
        | cons y ys =>
          rw [stringifyElems_cons2]
          have h1 : parseJson f (stringifyJson x
                ++ ',' :: (stringifyElems (y :: ys) ++ ']' :: rest))
              = some (x, ',' :: (stringifyElems (y :: ys) ++ ']' :: rest)) :=
            ihJ x _ (by omega) (headNotDigit_cons (by decide) _)
          have h2 : parseArrElems f (stringifyElems (y :: ys) ++ ']' :: rest)
              = some (.arr (y :: ys), rest) :=
            ihA (y :: ys) rest (by simp) (by omega)
          simp only [List.cons_append, List.append_assoc] at h1 ⊢
          simp [parseArrStep, h1, h2]
    · intro l rest hne hf
      cases l with
      | nil => exact absurd rfl hne
      | cons p ps =>
        obtain ⟨k, v⟩ := p
        rw [needFields] at hf
        have hv := needJson_pos v
        have hmk : String.mk k.data = k := rfl
        have hrb1 : ¬ rbrace = ',' := by decide
        rw [parseObjElems_succ]
        cases ps with
        | nil =>
          rw [stringifyFields_single]
          have hps := parseStringChars_escape k.data (':' :: (stringifyJson v ++ rbrace :: rest))
          have h1 : parseJson f (stringifyJson v ++ rbrace :: rest)
              = some (v, rbrace :: rest) :=
            ihJ v (rbrace :: rest) (by omega) (headNotDigit_cons (by decide) _)
          simp only [List.cons_append, List.append_assoc] at hps ⊢
          simp [parseObjStep, hps, h1, hrb1, hmk]
        | cons q qs =>
          rw [stringifyFields_cons2]
          have hps := parseStringChars_escape k.data
            (':' :: (stringifyJson v ++ ',' :: (stringifyFields (q :: qs) ++ rbrace :: rest)))
          have h1 : parseJson f (stringifyJson v
                ++ ',' :: (stringifyFields (q :: qs) ++ rbrace :: rest))
              = some (v, ',' :: (stringifyFields (q :: qs) ++ rbrace :: rest)) :=
            ihJ v _ (by omega) (headNotDigit_cons (by decide) _)
          have h2 : parseObjElems f (stringifyFields (q :: qs) ++ rbrace :: rest)
              = some (.obj ((q :: qs) : List (String × Json)), rest) :=
            ihO (q :: qs) rest (by simp) (by omega)
          simp only [List.cons_append, List.append_assoc] at hps h1 ⊢
          simp [parseObjStep, hps, h1, h2, hmk]

theorem intChars_ne_nil (n : Int) : intChars n ≠ [] := by
  rw [intChars]
  split
  · simp
  · exact (natChars_props n.natAbs).1

theorem need_le_aux (n : Nat) :
    (∀ j : Json, sizeOf j ≤ n → needJson j + 1 ≤ 2 * (stringifyJson j).length) ∧
    (∀ l : List Json, sizeOf l ≤ n → needElems l ≤ 2 * (stringifyElems l).length + 1) ∧
    (∀ l : List (String × Json), sizeOf l ≤ n →
      needFields l ≤ 2 * (stringifyFields l).length + 1) := by
  induction n using Nat.strong_induction_on with
  | _ n ih =>
    refine ⟨?_, ?_, ?_⟩
    · intro j hsz
      cases j with
      | null =>
        rw [needJson, stringifyJson_null]
        decide
      | bool b =>
        rw [needJson]
        cases b
        · rw [stringifyJson_false]; decide
        · rw [stringifyJson_true]; decide
      | num m =>
        rw [needJson, stringifyJson_num]
        have h1 : 0 < (intChars m).length := List.length_pos.mpr (intChars_ne_nil m)
        omega
      | str s =>
        rw [needJson, stringifyJson_str]
        simp only [List.length_cons, List.length_append]
        omega
      | arr l =>
        cases l with
        | nil =>
          rw [needJson, stringifyJson_arr, stringifyElems_nil]
          decide
        | cons x xs =>
          have hm : sizeOf (x :: xs) < n := by
            have hs : sizeOf (Json.arr (x :: xs)) = 1 + sizeOf (x :: xs) := by simp
            omega
          have hA := (ih _ hm).2.1 (x :: xs) (le_refl _)
          rw [needJson, stringifyJson_arr]
          simp only [List.length_cons, List.length_append] at hA ⊢
          omega
      | obj l =>
        cases l with
        | nil =>
          rw [needJson, stringifyJson_obj, stringifyFields_nil]
          decide
        | cons p ps =>
          have hm : sizeOf (p :: ps) < n := by
            have hs : sizeOf (Json.obj (p :: ps)) = 1 + sizeOf (p :: ps) := by simp
            omega
          have hO := (ih _ hm).2.2 (p :: ps) (le_refl _)
          rw [needJson, stringifyJson_obj]
          simp only [List.length_cons, List.length_append] at hO ⊢
          omega
    · intro l hsz
      cases l with
      | nil =>
        rw [needElems]
        omega
      | cons x xs =>
        have hsc : sizeOf (x :: xs) = 1 + sizeOf x + sizeOf xs := by simp
        have hmx : sizeOf x < n := by omega
        have hmxs : sizeOf xs < n := by omega
        have hx := (ih _ hmx).1 x (le_refl _)
        have hxs := (ih _ hmxs).2.1 xs (le_refl _)
        rw [needElems]
        cases xs with
        | nil =>
          rw [stringifyElems_single]
          have h0 : needElems ([] : List Json) = 0 := by rw [needElems]
          rw [h0]
          omega
        | cons y ys =>
          rw [stringifyElems_cons2]
          simp only [List.length_append, List.length_cons]
          omega
    · intro l hsz
      cases l with
      | nil =>
        rw [needFields]
        omega
      | cons p ps =>
        obtain ⟨k, v⟩ := p
        have hsc : sizeOf ((k, v) :: ps) = 1 + (1 + sizeOf k + sizeOf v) + sizeOf ps := by
          simp
        have hmv : sizeOf v < n := by omega
        have hmps : sizeOf ps < n := by omega
        have hv := (ih _ hmv).1 v (le_refl _)
        have hps := (ih _ hmps).2.2 ps (le_refl _)
        rw [needFields]
        cases ps with
        | nil =>
          rw [stringifyFields_single]
          have h0 : needFields ([] : List (String × Json)) = 0 := by rw [needFields]
          rw [h0]
          simp only [List.length_cons, List.length_append]
          omega
        | cons q qs =>
          rw [stringifyFields_cons2]
          simp only [List.length_append, List.length_cons]
          omega

theorem needJson_le (j : Json) : needJson j ≤ 2 * (stringifyJson j).length + 1 := by
  have h := (need_le_aux (sizeOf j)).1 j (le_refl _)
  omega

/-- JSON round trip: parsing the serialization of any JSON value returns
exactly that value. -/
theorem parseJsonTop_stringify (j : Json) : parseJsonTop (jsonStringify j) = some j := by
  unfold parseJsonTop jsonStringify
  have hdata : (String.mk (stringifyJson j)).data = stringifyJson j := rfl
  rw [hdata]
  have h := (parse_stringify_fuel (2 * (stringifyJson j).length + 1)).1 j []
    (needJson_le j) rfl
  rw [List.append_nil] at h
  rw [h]

theorem jsonStringify_ne_empty (j : Json) : jsonStringify j ≠ "" := by
  obtain ⟨c, cs, hcc, _⟩ := stringify_head j
  unfold jsonStringify
  rw [hcc]
  intro h
  have h2 : (c :: cs : List Char) = [] := congrArg String.data h
  simp at h2

theorem map_eq_self_of {α} (l : List α) (f : α → α) (h : ∀ x ∈ l, f x = x) :
    l.map f = l := by
  induction l with
  | nil => rfl
  | cons x xs ih => simp [h x (by simp), ih (fun y hy => h y (by simp [hy]))]

theorem isEmpty_false_of_ne {α} {l : List α} (h : l ≠ []) : l.isEmpty = false := by
  cases l with
  | nil => exact absurd rfl h
  | cons x xs => rfl

/-- C8: when a product's stored variants text fails to parse as JSON, the
variants become the empty mapping, the available stock for any color and
size is zero, and the item passes the stock pre-check exactly when its
requested quantity is at most zero. -/
theorem C8_variants_parse_failure (db : DB) (it : OrderItemReq) (p : ProductRow)
    (hp : findProduct db it.product_id = some p)
    (s : String) (hs : p.variants = some s) (hsne : s ≠ "")
    (hbad : parseJsonTop s = none) :
    parsedVariants p = Json.obj [] ∧
    availOf db it = Json.num 0 ∧
    (checkItem db it = .ok ↔ it.quantity ≤ 0) := by
  have hpv : parsedVariants p = Json.obj [] := by
    unfold parsedVariants
    rw [hs]
    simp [hsne, hbad]
  have h0 : variantStock (Json.obj []) it.color it.size = Json.num 0 := by
    simp [variantStock, Json.getField, lookupField]
  have hav : availOf db it = Json.num 0 := by
    unfold availOf
    rw [hp]
    show variantStock (parsedVariants p) it.color it.size = Json.num 0
    rw [hpv, h0]
  refine ⟨hpv, hav, ?_⟩
  unfold checkItem
  rw [hp]
  show (if jsLtNum (variantStock (parsedVariants p) it.color it.size) it.quantity = true
      then StockCheck.insufficient (variantStock (parsedVariants p) it.color it.size)
      else StockCheck.ok) = StockCheck.ok ↔ it.quantity ≤ 0
  rw [hpv, h0]
  by_cases hq : it.quantity ≤ 0
  · have hlt : jsLtNum (Json.num 0) it.quantity = false := by
      simp [jsLtNum]
      omega
    simp [hlt, hq]
  · have hlt : jsLtNum (Json.num 0) it.quantity = true := by
      simp [jsLtNum]
      omega
    simp [hlt, hq]

/-- C8 witness at a concrete database and item. -/
theorem C8_variants_parse_failure_witness :
    parsedVariants demoProductBad = Json.obj [] ∧
    availOf demoDB demoItemBad = Json.num 0 ∧
    (checkItem demoDB demoItemBad = .ok ↔ demoItemBad.quantity ≤ 0) :=
  C8_variants_parse_failure demoDB demoItemBad demoProductBad rfl "notjson" rfl
    (by decide) rfl

/-- C9: a POST /orders body whose total field is present but falsy is
rejected with the missing-total 400, no order being created and no stock
call issued, in both route variants. -/
theorem C9_falsy_total (verify : String → Option TokenPayload) (collab : Collab)
    (strMode : Bool) (now : Nat) (db : DB) (req : OrdersPostRequest) (u : AuthUser)
    (hauth : getUserFromToken verify req.auth = some u)
    (items : List OrderItemReq) (hitems : req.body.items = some items) (hne : items ≠ [])
    (t : Json) (ht : req.body.total = some t) (hfalsy : t.truthy = false) :
    ordersPOST verify collab strMode now db req
      = ⟨⟨400, errBody "Total amount and customer email are required"⟩, db, []⟩ ∧
    routeOrdersPOST collab strMode now db req
      = ⟨⟨400, errBody "Total amount and customer email are required"⟩, db, []⟩ := by
  have hemp := isEmpty_false_of_ne hne
  have htt : jsTruthy req.body.total = false := by
    rw [ht]
    simp [jsTruthy, hfalsy]
  constructor
  · unfold ordersPOST
    rw [hauth, hitems]
    simp [hemp, htt]
  · unfold routeOrdersPOST
    rw [hitems]
    simp [hemp, htt]

/-- C9 witness: the valid demo request with total zero. -/
theorem C9_falsy_total_witness :
    ordersPOST demoVerify collabOk false 1234 demoDB demoPostReqZero
      = ⟨⟨400, errBody "Total amount and customer email are required"⟩, demoDB, []⟩ ∧
    routeOrdersPOST collabOk false 1234 demoDB demoPostReqZero
      = ⟨⟨400, errBody "Total amount and customer email are required"⟩, demoDB, []⟩ :=
  C9_falsy_total demoVerify collabOk false 1234 demoDB demoPostReqZero ⟨"u1", "u1@mail"⟩
    rfl [demoItem] rfl (by simp) (Json.num 0) rfl (by decide)

/-- C7: PUT /orders updates status, tracking_number and updated_at only on
the row matching both the given id and the caller; rows not matching are
untouched; when no row matches, the response is the 404
not-found-or-unauthorized body and the table is unchanged, so a non-owning
caller leaves the stored status as it was. -/
theorem C7_order_update_scoped (verify : String → Option TokenPayload) (strMode : Bool)
    (now : Nat) (db : DB) (req : OrdersPutRequest) (u : AuthUser) (oid : Nat) (st : String)
    (hauth : getUserFromToken verify req.auth = some u)
    (hid : req.id = some oid)
    (hst : req.body.status = some st) (hstne : st ≠ "") :
    (ordersPUT verify strMode now db req).2.orders
        = db.orders.map (applyOrderUpdate now st (orNull req.body.tracking_number) oid u.id) ∧
    (∀ o : OrderRow, ¬(o.id = oid ∧ o.user_id = some u.id) →
      applyOrderUpdate now st (orNull req.body.tracking_number) oid u.id o = o) ∧
    (∀ o : OrderRow, o.id = oid → o.user_id = some u.id →
      applyOrderUpdate now st (orNull req.body.tracking_number) oid u.id o
        = { o with status := st, tracking_number := orNull req.body.tracking_number,
                   updated_at := now }) ∧
    ((∀ o ∈ db.orders, ¬(o.id = oid ∧ o.user_id = some u.id)) →
      ordersPUT verify strMode now db req
        = (⟨404, errBody "Order not found or unauthorized"⟩, db)) := by
  have htr : strTruthy req.body.status = true := by
    rw [hst]
    simp [strTruthy, hstne]
  have hgd : req.body.status.getD "" = st := by
    rw [hst]
    rfl
  have happly : ∀ o : OrderRow, ¬(o.id = oid ∧ o.user_id = some u.id) →
      applyOrderUpdate now st (orNull req.body.tracking_number) oid u.id o = o := by
    intro o ho
    unfold applyOrderUpdate
    have hcond : (o.id == oid && o.user_id == some u.id) = false := by
      by_cases h1 : o.id = oid
      · by_cases h2 : o.user_id = some u.id
        · exact absurd ⟨h1, h2⟩ ho
        · simp [h2]
      · simp [h1]
    rw [hcond]
    simp
  refine ⟨?_, happly, ?_, ?_⟩
  · unfold ordersPUT
    rw [hauth, hid]
    simp only [htr, Bool.not_true, Bool.false_eq_true, if_false, hgd]
    split
    · simp
    · split
      · simp
      · split
        · simp
        · simp
  · intro o h1 h2
    unfold applyOrderUpdate
    have hcond : (o.id == oid && o.user_id == some u.id) = true := by
      simp [h1, h2]
    rw [hcond]
    simp
  · intro hnone
    have haff : (db.orders.filter (fun o => o.id == oid && o.user_id == some u.id)).length = 0 := by
      have : db.orders.filter (fun o => o.id == oid && o.user_id == some u.id) = [] := by
        rw [List.filter_eq_nil_iff]
        intro o ho
        have := hnone o ho
        by_cases h1 : o.id = oid
        · by_cases h2 : o.user_id = some u.id
          · exact absurd ⟨h1, h2⟩ this
          · simp [h2]
        · simp [h1]
      rw [this]
      rfl
    have hmap : db.orders.map (applyOrderUpdate now st (orNull req.body.tracking_number) oid u.id)
        = db.orders := map_eq_self_of _ _ (fun o ho => happly o (hnone o ho))
    unfold ordersPUT
    rw [hauth, hid]
    simp only [htr, Bool.not_true, Bool.false_eq_true, if_false, hgd]
    rw [haff, hmap]
    simp

/-- C7 witness: caller u1 updating order 7 owned by u2 gets 404 and the
table is unchanged. -/
theorem C7_order_update_scoped_witness :
    ordersPUT demoVerify false 99 demoOrderDB demoPutReq
      = (⟨404, errBody "Order not found or unauthorized"⟩, demoOrderDB) :=
  (C7_order_update_scoped demoVerify false 99 demoOrderDB demoPutReq ⟨"u1", "u1@mail"⟩ 7
      "shipped" rfl rfl rfl (by decide)).2.2.2
    (by intro o ho; simp [demoOrderDB, demoOrderRow, demoDB] at ho; simp [ho])

theorem filter_defaults_cleared (l : List AddressRow) (uid : String) :
    (l.map (fun a => if a.user_id == uid then { a with is_default := false } else a)).filter
      (fun a => a.user_id == uid && a.is_default) = [] := by
  induction l with
  | nil => rfl
  | cons a l ih =>
    rw [List.map_cons, List.filter_cons]
    have hpred : ((if a.user_id == uid then { a with is_default := false } else a).user_id == uid
        && (if a.user_id == uid then { a with is_default := false } else a).is_default)
          = false := by
      by_cases h : a.user_id = uid
      · simp [h]
      · simp [h]
    rw [hpred]
    simp only [Bool.false_eq_true, if_false]
    exact ih

/-- C4: after a successful address create with a truthy is_default, and
after a successful address update with a truthy is_default (on an owned,
uniquely-identified row), the user has exactly one default address,
regardless of how many defaults existed before. -/
theorem C4_single_default (verify : String → Option TokenPayload) (now : Nat) (db : DB)
    (u : AuthUser) :
    (∀ req : AddressRequest, getUserFromToken verify req.auth = some u →
      addrRequired req.body = true → jsTruthy req.body.is_default = true →
      (addressesPOST verify now db req).1.status = 201 ∧
      countDefaults (addressesPOST verify now db req).2 u.id = 1) ∧
    (∀ (req : AddressRequest) (aid : Nat) (ex : AddressRow),
      getUserFromToken verify req.auth = some u →
      req.body.id = some aid → addrRequired req.body = true →
      jsTruthy req.body.is_default = true →
      db.addresses.find? (fun a => a.id == aid && a.user_id == u.id) = some ex →
      (db.addresses.filter (fun a => a.id == aid)).length ≤ 1 →
      (addressesPUT verify db req).1.status = 200 ∧
      countDefaults (addressesPUT verify db req).2 u.id = 1) := by
  constructor
  · intro req hauth haddr hdflt
    unfold addressesPOST
    rw [hauth]
    simp only [haddr, Bool.not_true, Bool.false_eq_true, if_false, hdflt, if_true]
    constructor
    · split
      · rfl
      · rfl
    · split
      all_goals
        unfold countDefaults clearDefaults
        simp only [List.filter_append, List.length_append]
        rw [filter_defaults_cleared]
        simp [hdflt]
  · intro req aid ex hauth hid haddr hdflt hex hone
    have hexmem := List.mem_of_find?_eq_some hex
    have hexp := List.find?_some hex
    have hexid : ex.id = aid ∧ ex.user_id = u.id := by
      simpa using hexp
    have hclearex : (if ex.user_id == u.id && ex.id != aid
        then { ex with is_default := false } else ex) = ex := by
      simp [hexid.1]
    have haff : ((db.addresses.map (fun a => if a.user_id == u.id && a.id != aid
          then { a with is_default := false } else a)).filter
        (fun a => a.id == aid && a.user_id == u.id)).length ≠ 0 := by
      rw [← List.countP_eq_length_filter]
      have hpos : 0 < (db.addresses.map (fun a => if a.user_id == u.id && a.id != aid
          then { a with is_default := false } else a)).countP
            (fun a => a.id == aid && a.user_id == u.id) :=
        List.countP_pos_iff.mpr
          ⟨_, List.mem_map_of_mem _ hexmem, by rw [hclearex]; exact hexp⟩
      omega
    have haffb : (((db.addresses.map (fun a => if a.user_id == u.id && a.id != aid
          then { a with is_default := false } else a)).filter
        (fun a => a.id == aid && a.user_id == u.id)).length == 0) = false := by
      simpa using haff
    have hpw : ∀ a : AddressRow,
        ((applyAddressUpdate req.body aid u.id (if a.user_id == u.id && a.id != aid
            then { a with is_default := false } else a)).user_id == u.id
          && (applyAddressUpdate req.body aid u.id (if a.user_id == u.id && a.id != aid
            then { a with is_default := false } else a)).is_default)
        = (a.id == aid && a.user_id == u.id) := by
      intro a
      by_cases h1 : a.id = aid
      · by_cases h2 : a.user_id = u.id
        · have hne : (a.id != aid) = false := by simp [h1]
          simp [hne, applyAddressUpdate, h1, h2, hdflt]
        · simp [applyAddressUpdate, h1, h2]
      · by_cases h2 : a.user_id = u.id
        · have hne : (a.id != aid) = true := by simp [h1]
          simp [hne, applyAddressUpdate, h1, h2]
        · have hb1 : (a.id == aid) = false := by simp [h1]
          have hb2 : (a.user_id == u.id) = false := by simp [h2]
          simp [applyAddressUpdate, hb1, hb2]
    have hcnt : ((db.addresses.map (fun a => if a.user_id == u.id && a.id != aid
          then { a with is_default := false } else a)).map
            (applyAddressUpdate req.body aid u.id)).countP
          (fun a => a.user_id == u.id && a.is_default) = 1 := by
      rw [List.map_map, List.countP_map]
      rw [List.countP_congr (fun a _ => by
        show ((fun a => a.user_id == u.id && a.is_default)
            ((applyAddressUpdate req.body aid u.id ∘ fun a =>
              if a.user_id == u.id && a.id != aid
                then { a with is_default := false } else a) a)) = true
          ↔ ((fun a => a.id == aid && a.user_id == u.id) a) = true
        rw [Function.comp_apply]
        rw [show ((fun a => a.user_id == u.id && a.is_default)
            (applyAddressUpdate req.body aid u.id (if a.user_id == u.id && a.id != aid
              then { a with is_default := false } else a)))
          = (a.id == aid && a.user_id == u.id) from hpw a])]
      have hle : db.addresses.countP (fun a => a.id == aid && a.user_id == u.id)
          ≤ db.addresses.countP (fun a => a.id == aid) := by
        apply List.countP_mono_left
        intro a _ h
        simp at h
        simp [h.1]
      have hge : 0 < db.addresses.countP (fun a => a.id == aid && a.user_id == u.id) :=
        List.countP_pos_iff.mpr ⟨ex, hexmem, hexp⟩
      have hone2 : db.addresses.countP (fun a => a.id == aid) ≤ 1 := by
        rw [List.countP_eq_length_filter]
        exact hone
      omega
    unfold addressesPUT clearOtherDefaults
    rw [hauth, hid]
    simp only [haddr, Bool.not_true, Bool.false_eq_true, if_false, hex, hdflt, if_true]
    simp only [haffb, Bool.false_eq_true, if_false]
    constructor
    · split
      · rfl
      · rfl
    · unfold countDefaults
      rw [← List.countP_eq_length_filter]
      split
      all_goals
        simpa using hcnt

/-- C4 witness: in a database where user u1 has two default addresses,
both the default-setting create and the default-setting update leave
exactly one default. -/
theorem C4_single_default_witness :
    ((addressesPOST demoVerify 50 demoAddrDB demoAddrReq).1.status = 201 ∧
      countDefaults (addressesPOST demoVerify 50 demoAddrDB demoAddrReq).2 "u1" = 1) ∧
    ((addressesPUT demoVerify demoAddrDB demoAddrReq).1.status = 200 ∧
      countDefaults (addressesPUT demoVerify demoAddrDB demoAddrReq).2 "u1" = 1) :=
  ⟨(C4_single_default demoVerify 50 demoAddrDB ⟨"u1", "u1@mail"⟩).1 demoAddrReq rfl
      (by decide) (by decide),
    (C4_single_default demoVerify 50 demoAddrDB ⟨"u1", "u1@mail"⟩).2 demoAddrReq 1
      demoAddrRow1 rfl rfl (by decide) (by decide) rfl (by decide)⟩

/-- C10: a successful address update stores the truthiness of the supplied
is_default value; with is_default absent or falsy the row's flag becomes
false, so updating the only default address of a user without passing
is_default leaves that user with zero default addresses. -/
theorem C10_update_clears_default (verify : String → Option TokenPayload) (db : DB)
    (req : AddressRequest) (u : AuthUser) (aid : Nat) (ex : AddressRow)
    (hauth : getUserFromToken verify req.auth = some u)
    (hid : req.body.id = some aid)
    (haddr : addrRequired req.body = true)
    (hnd : jsTruthy req.body.is_default = false)
    (hex : db.addresses.find? (fun a => a.id == aid && a.user_id == u.id) = some ex) :
    (addressesPUT verify db req).2.addresses
        = db.addresses.map (applyAddressUpdate req.body aid u.id) ∧
    (∀ a : AddressRow, a.id = aid → a.user_id = u.id →
      (applyAddressUpdate req.body aid u.id a).is_default = false) ∧
    ((∀ a ∈ db.addresses, a.user_id = u.id → a.is_default = true → a.id = aid) →
      countDefaults (addressesPUT verify db req).2 u.id = 0) := by
  have hcleared : (addressesPUT verify db req).2.addresses
      = db.addresses.map (applyAddressUpdate req.body aid u.id) := by
    unfold addressesPUT
    rw [hauth, hid]
    simp only [haddr, Bool.not_true, Bool.false_eq_true, if_false, hex, hnd, if_false]
    split
    · simp
    · split
      · simp
      · simp
  have hflag : ∀ a : AddressRow, a.id = aid → a.user_id = u.id →
      (applyAddressUpdate req.body aid u.id a).is_default = false := by
    intro a h1 h2
    simp [applyAddressUpdate, h1, h2, hnd]
  refine ⟨hcleared, hflag, ?_⟩
  intro honly
  unfold countDefaults
  rw [hcleared, ← List.countP_eq_length_filter, List.countP_map]
  apply List.countP_eq_zero.mpr
  intro a ha
  simp only [Function.comp_apply]
  by_cases h1 : a.id = aid
  · by_cases h2 : a.user_id = u.id
    · simp [applyAddressUpdate, h1, h2, hnd]
    · have hb2 : (a.user_id == u.id) = false := by simp [h2]
      simp [applyAddressUpdate, h1, h2, hb2]
  · by_cases h2 : a.user_id = u.id
    · have hnd2 : a.is_default = false := by
        by_contra hcon
        have : a.is_default = true := by
          cases hdf : a.is_default
          · exact absurd hdf hcon
          · rfl
        exact h1 (honly a ha h2 this)
      have hb1 : (a.id == aid) = false := by simp [h1]
      simp [applyAddressUpdate, hb1, hnd2, h2]
    · have hb1 : (a.id == aid) = false := by simp [h1]
      have hb2 : (a.user_id == u.id) = false := by simp [h2]
      simp [applyAddressUpdate, hb1, hb2]

/-- C10 witness: updating the only default address of u1 without passing
is_default leaves u1 with zero defaults. -/
theorem C10_update_clears_default_witness :
    countDefaults (addressesPUT demoVerify demoAddrOneDfltDB demoAddrReqNoDflt).2 "u1" = 0 :=
  (C10_update_clears_default demoVerify demoAddrOneDfltDB demoAddrReqNoDflt
      ⟨"u1", "u1@mail"⟩ 1 demoAddrRow1 rfl rfl (by decide) (by decide) rfl).2.2
    (by decide)

theorem availOf_found (db : DB) (it : OrderItemReq) (p : ProductRow)
    (hp : findProduct db it.product_id = some p) :
    availOf db it = variantStock (parsedVariants p) it.color it.size := by
  unfold availOf
  rw [hp]

theorem failsCheck_spec (db : DB) (it : OrderItemReq) (h : failsCheck db it = true) :
    checkItem db it = .insufficient (availOf db it) ∧
    jsLtNum (availOf db it) it.quantity = true := by
  unfold failsCheck at h
  rcases hchk : checkItem db it with _ | _ | v
  · rw [hchk] at h
    simp at h
  · rw [hchk] at h
    simp at h
  · unfold checkItem at hchk
    cases hp : findProduct db it.product_id with
    | none =>
      rw [hp] at hchk
      exact absurd hchk (by simp)
    | some p =>
      rw [hp] at hchk
      have hava := availOf_found db it p hp
      have hchk2 : (if jsLtNum (variantStock (parsedVariants p) it.color it.size)
            it.quantity = true
          then StockCheck.insufficient (variantStock (parsedVariants p) it.color it.size)
          else StockCheck.ok) = StockCheck.insufficient v := hchk
      by_cases hlt : jsLtNum (variantStock (parsedVariants p) it.color it.size)
          it.quantity = true
      · rw [if_pos hlt] at hchk2
        have hv : variantStock (parsedVariants p) it.color it.size = v := by
          injection hchk2
        constructor
        · rw [hava, hv]
        · rw [hava]
          exact hlt
      · rw [if_neg hlt] at hchk2
        cases hchk2

theorem checkItem_ok_of (db : DB) (it : OrderItemReq)
    (hnf : notFoundCheck db it = false) (hfc : failsCheck db it = false) :
    checkItem db it = .ok := by
  unfold notFoundCheck at hnf
  unfold failsCheck at hfc
  rcases hchk : checkItem db it with _ | _ | v
  · rfl
  · rw [hchk] at hnf
    simp at hnf
  · rw [hchk] at hfc
    simp at hfc

theorem validateStock_insufficient (db : DB) :
    ∀ (items : List OrderItemReq) (itF : OrderItemReq),
    (∀ it ∈ items, notFoundCheck db it = false) →
    items.find? (failsCheck db) = some itF →
    validateStock db items = some ⟨400, insufficientBody itF (availOf db itF)⟩ := by
  intro items
  induction items with
  | nil =>
    intro itF _ hfind
    simp [List.find?] at hfind
  | cons it rest ih =>
    intro itF hnf hfind
    rw [List.find?] at hfind
    cases hfc : failsCheck db it with
    | false =>
      rw [hfc] at hfind
      have hok : checkItem db it = .ok := checkItem_ok_of db it (hnf it (by simp)) hfc
      unfold validateStock
      rw [hok]
      exact ih itF (fun x hx => hnf x (by simp [hx])) hfind
    | true =>
      rw [hfc] at hfind
      have hit : it = itF := by
        simpa using hfind
      subst hit
      obtain ⟨hchk, _⟩ := failsCheck_spec db it hfc
      unfold validateStock
      rw [hchk]

/-- C1: when every item's product exists and some item fails the stock
pre-check, POST /orders answers 400 with the first failing item's full
insufficient-stock detail, the database is completely unchanged, and no
stock-adjustment call is issued (the pre-check short-circuits before any
insert). -/
theorem C1_insufficient_stock (verify : String → Option TokenPayload) (collab : Collab)
    (strMode : Bool) (now : Nat) (db : DB) (req : OrdersPostRequest) (u : AuthUser)
    (items : List OrderItemReq) (itF : OrderItemReq)
    (hauth : getUserFromToken verify req.auth = some u)
    (hitems : req.body.items = some items)
    (htot : jsTruthy req.body.total = true)
    (hmail : jsTruthy req.body.customer_email = true)
    (hnf : ∀ it ∈ items, notFoundCheck db it = false)
    (hfind : items.find? (failsCheck db) = some itF) :
    ordersPOST verify collab strMode now db req
      = ⟨⟨400, insufficientBody itF (availOf db itF)⟩, db, []⟩ ∧
    itF ∈ items ∧
    jsLtNum (availOf db itF) itF.quantity = true := by
  have hne : items ≠ [] := by
    intro hcontra
    rw [hcontra] at hfind
    simp [List.find?] at hfind
  have hval := validateStock_insufficient db items itF hnf hfind
  refine ⟨?_, List.mem_of_find?_eq_some hfind,
    (failsCheck_spec db itF (List.find?_some hfind)).2⟩
  unfold ordersPOST
  rw [hauth, hitems]
  simp [isEmpty_false_of_ne hne, htot, hmail, hval]

/-- C1 witness: the demo request with a quantity of nine against five in
stock is answered 400 with the detail and no change. -/
theorem C1_insufficient_stock_witness :
    ordersPOST demoVerify collabOk false 1234 demoDB demoPostReqBig
      = ⟨⟨400, insufficientBody demoItemBig (availOf demoDB demoItemBig)⟩, demoDB, []⟩ ∧
    demoItemBig ∈ [demoItemBig] ∧
    jsLtNum (availOf demoDB demoItemBig) demoItemBig.quantity = true := by
  have hpv : parsedVariants demoProduct
      = Json.obj [("red", Json.obj [("M", Json.num 5)])] := by
    have hvar : demoProduct.variants
        = some (jsonStringify (Json.obj [("red", Json.obj [("M", Json.num 5)])])) := rfl
    unfold parsedVariants
    rw [hvar]
    show (if jsonStringify (Json.obj [("red", Json.obj [("M", Json.num 5)])]) = ""
        then Json.obj []
        else match parseJsonTop (jsonStringify
            (Json.obj [("red", Json.obj [("M", Json.num 5)])])) with
          | some j => j
          | none => Json.obj []) = Json.obj [("red", Json.obj [("M", Json.num 5)])]
    rw [if_neg (jsonStringify_ne_empty _), parseJsonTop_stringify]
  have hvs : variantStock (Json.obj [("red", Json.obj [("M", Json.num 5)])])
      demoItemBig.color demoItemBig.size = Json.num 5 := by
    simp [variantStock, Json.getField, lookupField, demoItemBig, demoItem, Json.truthy]
  have hlt : jsLtNum (Json.num 5) demoItemBig.quantity = true := by
    simp [jsLtNum, demoItemBig, demoItem]
  have hchkBig : checkItem demoDB demoItemBig = .insufficient (Json.num 5) := by
    unfold checkItem
    rw [show findProduct demoDB demoItemBig.product_id = some demoProduct from rfl]
    show (if jsLtNum (variantStock (parsedVariants demoProduct) demoItemBig.color
          demoItemBig.size) demoItemBig.quantity = true
        then StockCheck.insufficient (variantStock (parsedVariants demoProduct)
          demoItemBig.color demoItemBig.size)
        else StockCheck.ok) = StockCheck.insufficient (Json.num 5)
    rw [hpv, hvs]
    rw [if_pos hlt]
  apply C1_insufficient_stock demoVerify collabOk false 1234 demoDB demoPostReqBig
    ⟨"u1", "u1@mail"⟩ [demoItemBig] demoItemBig rfl rfl (by decide) (by decide)
  · intro it hit
    have hone : it = demoItemBig := by
      simpa using hit
    subst hone
    unfold notFoundCheck
    rw [hchkBig]
  · show List.find? (failsCheck demoDB) [demoItemBig] = some demoItemBig
    rw [List.find?]
    rw [show failsCheck demoDB demoItemBig = true from by unfold failsCheck; rw [hchkBig]]

theorem validateStock_ok (db : DB) : ∀ items : List OrderItemReq,
    (∀ it ∈ items, checkItem db it = .ok) → validateStock db items = none := by
  intro items
  induction items with
  | nil => intro _; rfl
  | cons it rest ih =>
    intro h
    unfold validateStock
    rw [h it (by simp)]
    exact ih (fun x hx => h x (by simp [hx]))

theorem runStockCalls_spec (collab : Collab) (auth : Option String) :
    ∀ (items : List OrderItemReq) (db db1 : DB) (calls : List StockCall)
      (res : Option Resp),
      runStockCalls collab auth db items = (db1, calls, res) →
      (∀ c ∈ calls, ∃ it ∈ items, c = mkStockCall auth it) ∧
      (∀ r, res = some r →
        ∃ it ∈ items, ∃ dbx : DB, (collab dbx (mkStockCall auth it)).1.ok = false ∧
          r = ⟨400, stockFailBody it ((collab dbx (mkStockCall auth it)).1.message)⟩) := by
  intro items
  induction items with
  | nil =>
    intro db db1 calls res h
    unfold runStockCalls at h
    obtain ⟨h1, h2⟩ : ([] : List StockCall) = calls ∧ (none : Option Resp) = res := by
      have := congrArg (fun p => p.2) h
      simpa using this
    constructor
    · intro c hc
      rw [← h1] at hc
      simp at hc
    · intro r hr
      rw [← h2] at hr
      cases hr
  | cons it rest ih =>
    intro db db1 calls res h
    unfold runStockCalls at h
    rcases hcol : collab db (mkStockCall auth it) with ⟨reply, dbm⟩
    simp only [hcol] at h
    by_cases hok : reply.ok = true
    · rw [if_pos hok] at h
      rcases hrec : runStockCalls collab auth dbm rest with ⟨db2, tr, r2⟩
      simp only [hrec] at h
      obtain ⟨hcalls, hres⟩ : mkStockCall auth it :: tr = calls ∧ r2 = res := by
        have := congrArg (fun p => p.2) h
        simpa using this
      obtain ⟨ih1, ih2⟩ := ih dbm db2 tr r2 hrec
      constructor
      · intro c hc
        rw [← hcalls] at hc
        rcases List.mem_cons.mp hc with hh | hh
        · exact ⟨it, by simp, hh⟩
        · obtain ⟨it2, hit2, heq⟩ := ih1 c hh
          exact ⟨it2, by simp [hit2], heq⟩
      · intro r hr
        rw [← hres] at hr
        obtain ⟨it2, hit2, dbx, hfail, heq⟩ := ih2 r hr
        exact ⟨it2, by simp [hit2], dbx, hfail, heq⟩
    · have hokf : reply.ok = false := by
        revert hok
        cases reply.ok
        · intro _; rfl
        · intro hcon; exact absurd rfl hcon
      rw [hokf] at h
      simp only [Bool.false_eq_true, if_false] at h
      obtain ⟨hcalls, hres⟩ : [mkStockCall auth it] = calls ∧
          (some (⟨400, stockFailBody it reply.message⟩ : Resp) : Option Resp) = res := by
        have := congrArg (fun p => p.2) h
        simpa using this
      constructor
      · intro c hc
        rw [← hcalls] at hc
        have : c = mkStockCall auth it := by
          simpa using hc
        exact ⟨it, by simp, this⟩
      · intro r hr
        rw [← hres] at hr
        have hreq : r = ⟨400, stockFailBody it reply.message⟩ := by
          cases hr
          rfl
        refine ⟨it, by simp, db, ?_, ?_⟩
        · rw [hcol]
          exact hokf
        · rw [hcol]
          exact hreq

theorem runStockCalls_preserves (collab : Collab) (auth : Option String)
    (hc : ∀ dbx c, (collab dbx c).2.orders = dbx.orders ∧
      (collab dbx c).2.order_items = dbx.order_items) :
    ∀ (items : List OrderItemReq) (db : DB),
      (runStockCalls collab auth db items).1.orders = db.orders ∧
      (runStockCalls collab auth db items).1.order_items = db.order_items := by
  intro items
  induction items with
  | nil =>
    intro db
    constructor
    · rfl
    · rfl
  | cons it rest ih =>
    intro db
    unfold runStockCalls
    rcases hcol : collab db (mkStockCall auth it) with ⟨reply, dbm⟩
    simp only [hcol]
    have h2 := hc db (mkStockCall auth it)
    rw [hcol] at h2
    by_cases hok : reply.ok = true
    · rw [if_pos hok]
      rcases hrec : runStockCalls collab auth dbm rest with ⟨db2, tr, r2⟩
      simp only [hrec]
      have h1 := ih dbm
      rw [hrec] at h1
      constructor
      · exact h1.1.trans h2.1
      · exact h1.2.trans h2.2
    · have hokf : reply.ok = false := by
        revert hok
        cases reply.ok
        · intro _; rfl
        · intro hcon; exact absurd rfl hcon
      rw [hokf]
      simp only [Bool.false_eq_true, if_false]
      exact h2

/-- C3: stock-adjustment calls are issued only after every item passed the
stock pre-check (a validation failure produces an empty call trace); every
issued call forwards the item's color, size and quantity together with the
caller's Authorization header; and when some call is refused, the request
ends with 400 carrying the collaborator's error message, the handler adds
no order or order-item rows, and the database is returned exactly as the
collaborator left it after the calls already made, with no compensating
rollback. -/
theorem C3_stock_adjustment (verify : String → Option TokenPayload) (collab : Collab)
    (strMode : Bool) (now : Nat) (db : DB) (req : OrdersPostRequest) (u : AuthUser)
    (items : List OrderItemReq)
    (hauth : getUserFromToken verify req.auth = some u)
    (hitems : req.body.items = some items)
    (htot : jsTruthy req.body.total = true)
    (hmail : jsTruthy req.body.customer_email = true)
    (hne : items ≠ []) :
    (∀ r, validateStock db items = some r →
      ordersPOST verify collab strMode now db req = ⟨r, db, []⟩) ∧
    (∀ (db1 : DB) (calls : List StockCall) (res : Option Resp),
      runStockCalls collab req.auth db items = (db1, calls, res) →
      ∀ c ∈ calls, ∃ it ∈ items, c.color = it.color ∧ c.size = it.size ∧
        c.quantity = it.quantity ∧ c.auth = req.auth.getD "") ∧
    (∀ (db1 : DB) (calls : List StockCall) (r : Resp),
      validateStock db items = none →
      runStockCalls collab req.auth db items = (db1, calls, some r) →
      ordersPOST verify collab strMode now db req = ⟨r, db1, calls⟩ ∧
      r.status = 400 ∧
      (∃ it ∈ items, ∃ dbx : DB,
        (collab dbx (mkStockCall req.auth it)).1.ok = false ∧
        r = ⟨400, stockFailBody it ((collab dbx (mkStockCall req.auth it)).1.message)⟩) ∧
      ((∀ dbx c, (collab dbx c).2.orders = dbx.orders ∧
          (collab dbx c).2.order_items = dbx.order_items) →
        db1.orders = db.orders ∧ db1.order_items = db.order_items)) := by
  have hemp := isEmpty_false_of_ne hne
  refine ⟨?_, ?_, ?_⟩
  · intro r hval
    unfold ordersPOST
    rw [hauth, hitems]
    simp [hemp, htot, hmail, hval]
  · intro db1 calls res hrun c hc
    obtain ⟨hcalls, _⟩ := runStockCalls_spec collab req.auth items db db1 calls res hrun
    obtain ⟨it, hit, heq⟩ := hcalls c hc
    exact ⟨it, hit, by rw [heq]; exact ⟨rfl, rfl, rfl, rfl⟩⟩
  · intro db1 calls r hval hrun
    obtain ⟨hcalls, hfail⟩ :=
      runStockCalls_spec collab req.auth items db db1 calls (some r) hrun
    obtain ⟨it, hit, dbx, hno, hreq⟩ := hfail r rfl
    refine ⟨?_, ?_, ⟨it, hit, dbx, hno, hreq⟩, ?_⟩
    · unfold ordersPOST
      rw [hauth, hitems]
      simp only [hemp, Bool.false_eq_true, if_false, htot, hmail, Bool.and_self,
        Bool.not_true, hval]
      rw [hrun]
    · rw [hreq]
    · intro hpres
      have h := runStockCalls_preserves collab req.auth hpres items db
      rw [hrun] at h
      exact h

/-- C3 witness: with a refusing collaborator, the validated demo request
ends 400 with the collaborator message, one forwarded call was issued, and
nothing was inserted. -/
theorem C3_stock_adjustment_witness :
    ordersPOST demoVerify collabRefuse false 1234 demoDB demoPostReq
      = ⟨⟨400, stockFailBody demoItem (some "out of stock")⟩, demoDB,
          [mkStockCall (some "Bearer tok1") demoItem]⟩ := by
  have hpv : parsedVariants demoProduct
      = Json.obj [("red", Json.obj [("M", Json.num 5)])] := by
    have hvar : demoProduct.variants
        = some (jsonStringify (Json.obj [("red", Json.obj [("M", Json.num 5)])])) := rfl
    unfold parsedVariants
    rw [hvar]
    show (if jsonStringify (Json.obj [("red", Json.obj [("M", Json.num 5)])]) = ""
        then Json.obj []
        else match parseJsonTop (jsonStringify
            (Json.obj [("red", Json.obj [("M", Json.num 5)])])) with
          | some j => j
          | none => Json.obj []) = Json.obj [("red", Json.obj [("M", Json.num 5)])]
    rw [if_neg (jsonStringify_ne_empty _), parseJsonTop_stringify]
  have hchkOk : checkItem demoDB demoItem = .ok := by
    unfold checkItem
    rw [show findProduct demoDB demoItem.product_id = some demoProduct from rfl]
    show (if jsLtNum (variantStock (parsedVariants demoProduct) demoItem.color
          demoItem.size) demoItem.quantity = true
        then StockCheck.insufficient (variantStock (parsedVariants demoProduct)
          demoItem.color demoItem.size)
        else StockCheck.ok) = StockCheck.ok
    rw [hpv]
    rw [show variantStock (Json.obj [("red", Json.obj [("M", Json.num 5)])])
        demoItem.color demoItem.size = Json.num 5 from by
      simp [variantStock, Json.getField, lookupField, demoItem, Json.truthy]]
    rw [if_neg (by simp [jsLtNum, demoItem])]
  have hval : validateStock demoDB [demoItem] = none :=
    validateStock_ok demoDB [demoItem] (by
      intro it hit
      have : it = demoItem := by simpa using hit
      rw [this, hchkOk])
  have hrun : runStockCalls collabRefuse demoPostReq.auth demoDB [demoItem]
      = (demoDB, [mkStockCall (some "Bearer tok1") demoItem],
          some ⟨400, stockFailBody demoItem (some "out of stock")⟩) := rfl
  exact ((C3_stock_adjustment demoVerify collabRefuse false 1234 demoDB demoPostReq
      ⟨"u1", "u1@mail"⟩ [demoItem] rfl rfl (by decide) (by decide) (by simp)).2.2
    demoDB [mkStockCall (some "Bearer tok1") demoItem]
    ⟨400, stockFailBody demoItem (some "out of stock")⟩ hval hrun).1

theorem insertItems_eq : ∀ (items : List OrderItemReq) (db : DB) (oid : Nat),
    insertItems db oid items
      = { db with order_items := db.order_items ++ buildItemRows db.nextOrderItemId oid items,
                  nextOrderItemId := db.nextOrderItemId + items.length } := by
  intro items
  induction items with
  | nil =>
    intro db oid
    show db = _
    rw [buildItemRows]
    simp
  | cons it rest ih =>
    intro db oid
    show insertItems _ oid rest = _
    rw [ih]
    rw [buildItemRows]
    simp [List.append_assoc]
    omega

theorem buildItemRows_length : ∀ (items : List OrderItemReq) (s oid : Nat),
    (buildItemRows s oid items).length = items.length := by
  intro items
  induction items with
  | nil => intro s oid; rw [buildItemRows]; rfl
  | cons it rest ih =>
    intro s oid
    rw [buildItemRows]
    simp [ih]

theorem buildItemRows_order_id : ∀ (items : List OrderItemReq) (s oid : Nat),
    ∀ r ∈ buildItemRows s oid items, r.order_id = oid := by
  intro items
  induction items with
  | nil =>
    intro s oid r hr
    rw [buildItemRows] at hr
    cases hr
  | cons it rest ih =>
    intro s oid r hr
    rw [buildItemRows] at hr
    rcases List.mem_cons.mp hr with h | h
    · rw [h]
    · exact ih (s + 1) oid r h

theorem find?_append_fresh (l : List OrderRow) (row : OrderRow) (oid : Nat)
    (hf : ∀ o ∈ l, o.id ≠ oid) (hrow : row.id = oid) :
    (l ++ [row]).find? (fun o => o.id == oid) = some row := by
  induction l with
  | nil =>
    rw [List.nil_append, List.find?]
    rw [show (row.id == oid) = true from by simp [hrow]]
  | cons o l ih =>
    rw [List.cons_append, List.find?]
    rw [show (o.id == oid) = false from by simp [hf o (by simp)]]
    exact ih (fun x hx => hf x (by simp [hx]))

theorem filter_items_fresh (old new2 : List OrderItemRow) (oid : Nat)
    (h1 : ∀ r ∈ old, r.order_id ≠ oid) (h2 : ∀ r ∈ new2, r.order_id = oid) :
    (old ++ new2).filter (fun r => r.order_id == oid) = new2 := by
  rw [List.filter_append]
  rw [List.filter_eq_nil_iff.mpr (by intro r hr; simp [h1 r hr])]
  rw [List.nil_append]
  induction new2 with
  | nil => rfl
  | cons r rest ih =>
    rw [List.filter_cons]
    rw [show (r.order_id == oid) = true from by simp [h2 r (by simp)]]
    simp only [if_true]
    rw [ih (fun x hx => h2 x (by simp [hx]))]

theorem parseShippingField_stored (sa : Option Json) :
    parseShippingField (some (storedShipping sa)) = .ok (shipStoredVal sa) := by
  unfold parseShippingField storedShipping
  show (if jsonStringify (shipStoredVal sa) = "" then Except.ok Json.null
      else match parseJsonTop (jsonStringify (shipStoredVal sa)) with
        | some j => Except.ok j
        | none => Except.error ()) = Except.ok (shipStoredVal sa)
  rw [if_neg (jsonStringify_ne_empty _), parseJsonTop_stringify]

theorem ordersPOST_created (verify : String → Option TokenPayload) (collab : Collab)
    (strMode : Bool) (now : Nat) (db : DB) (req : OrdersPostRequest) (u : AuthUser)
    (items : List OrderItemReq) (db1 : DB) (calls : List StockCall)
    (hauth : getUserFromToken verify req.auth = some u)
    (hitems : req.body.items = some items)
    (htot : jsTruthy req.body.total = true)
    (hmail : jsTruthy req.body.customer_email = true)
    (hne : items ≠ [])
    (hval : validateStock db items = none)
    (hrun : runStockCalls collab req.auth db items = (db1, calls, none))
    (hfreshO : ∀ o ∈ db1.orders, o.id ≠ db1.nextOrderId)
    (hfreshI : ∀ r ∈ db1.order_items, r.order_id ≠ db1.nextOrderId) :
    ordersPOST verify collab strMode now db req
      = ⟨⟨201, Json.obj (setField (orderRowFields strMode
              (newOrderRow now db1.nextOrderId (some u.id) req.body)) "shipping_address"
              (shipStoredVal req.body.shipping_address)
            ++ [("items", .arr ((buildItemRows db1.nextOrderItemId db1.nextOrderId items).map
                (orderItemRowJson strMode)))])⟩,
          { db1 with
              orders := db1.orders
                ++ [newOrderRow now db1.nextOrderId (some u.id) req.body],
              nextOrderId := db1.nextOrderId + 1,
              order_items := db1.order_items
                ++ buildItemRows db1.nextOrderItemId db1.nextOrderId items,
              nextOrderItemId := db1.nextOrderItemId + items.length },
          calls⟩ := by
  have hemp := isEmpty_false_of_ne hne
  have hfind : (db1.orders ++ [newOrderRow now db1.nextOrderId (some u.id) req.body]).find?
      (fun o => o.id == db1.nextOrderId)
      = some (newOrderRow now db1.nextOrderId (some u.id) req.body) :=
    find?_append_fresh db1.orders _ db1.nextOrderId hfreshO rfl
  have hfilter : (db1.order_items
        ++ buildItemRows db1.nextOrderItemId db1.nextOrderId items).filter
      (fun r => r.order_id == db1.nextOrderId)
      = buildItemRows db1.nextOrderItemId db1.nextOrderId items :=
    filter_items_fresh _ _ _ hfreshI (buildItemRows_order_id items _ _)
  have hship : parseShippingField
      (newOrderRow now db1.nextOrderId (some u.id) req.body).shipping_address
      = .ok (shipStoredVal req.body.shipping_address) :=
    parseShippingField_stored req.body.shipping_address
  unfold ordersPOST
  rw [hauth, hitems]
  simp only [hemp, Bool.false_eq_true, if_false, htot, hmail, Bool.and_self,
    Bool.not_true, hval]
  simp only [hrun, insertItems_eq]
  simp only [hfind, hfilter, hship]

theorem routeOrdersPOST_created (collab : Collab) (strMode : Bool) (now : Nat)
    (db : DB) (req : OrdersPostRequest) (items : List OrderItemReq) (db1 : DB)
    (calls : List StockCall)
    (hitems : req.body.items = some items)
    (htot : jsTruthy req.body.total = true)
    (hmail : jsTruthy req.body.customer_email = true)
    (hne : items ≠ [])
    (hval : validateStock db items = none)
    (hrun : runStockCalls collab req.auth db items = (db1, calls, none))
    (hfreshO : ∀ o ∈ db1.orders, o.id ≠ db1.nextOrderId)
    (hfreshI : ∀ r ∈ db1.order_items, r.order_id ≠ db1.nextOrderId) :
    routeOrdersPOST collab strMode now db req
      = ⟨⟨201, Json.obj (setField (orderRowFields strMode
              { newOrderRow now db1.nextOrderId (jsUserId req.body.user_id) req.body with
                  payment_screenshot := none }) "shipping_address"
              (shipStoredVal req.body.shipping_address)
            ++ [("items", .arr ((buildItemRows db1.nextOrderItemId db1.nextOrderId items).map
                (orderItemRowJson strMode)))])⟩,
          { db1 with
              orders := db1.orders
                ++ [{ newOrderRow now db1.nextOrderId (jsUserId req.body.user_id) req.body with
                        payment_screenshot := none }],
              nextOrderId := db1.nextOrderId + 1,
              order_items := db1.order_items
                ++ buildItemRows db1.nextOrderItemId db1.nextOrderId items,
              nextOrderItemId := db1.nextOrderItemId + items.length },
          calls⟩ := by
  have hemp := isEmpty_false_of_ne hne
  have hfind : (db1.orders
        ++ [{ newOrderRow now db1.nextOrderId (jsUserId req.body.user_id) req.body with
                payment_screenshot := none }]).find?
      (fun o => o.id == db1.nextOrderId)
      = some { newOrderRow now db1.nextOrderId (jsUserId req.body.user_id) req.body with
                payment_screenshot := none } :=
    find?_append_fresh db1.orders _ db1.nextOrderId hfreshO rfl
  have hfilter : (db1.order_items
        ++ buildItemRows db1.nextOrderItemId db1.nextOrderId items).filter
      (fun r => r.order_id == db1.nextOrderId)
      = buildItemRows db1.nextOrderItemId db1.nextOrderId items :=
    filter_items_fresh _ _ _ hfreshI (buildItemRows_order_id items _ _)
  have hship : parseShippingField
      ({ newOrderRow now db1.nextOrderId (jsUserId req.body.user_id) req.body with
          payment_screenshot := none }).shipping_address
      = .ok (shipStoredVal req.body.shipping_address) :=
    parseShippingField_stored req.body.shipping_address
  unfold routeOrdersPOST
  rw [hitems]
  simp only [hemp, Bool.false_eq_true, if_false, htot, hmail, Bool.and_self,
    Bool.not_true, hval]
  simp only [hrun, insertItems_eq]
  simp only [hfind, hfilter, hship]

theorem demo_parsedVariants : parsedVariants demoProduct
    = Json.obj [("red", Json.obj [("M", Json.num 5)])] := by
  have hvar : demoProduct.variants
      = some (jsonStringify (Json.obj [("red", Json.obj [("M", Json.num 5)])])) := rfl
  unfold parsedVariants
  rw [hvar]
  show (if jsonStringify (Json.obj [("red", Json.obj [("M", Json.num 5)])]) = ""
      then Json.obj []
      else match parseJsonTop (jsonStringify
          (Json.obj [("red", Json.obj [("M", Json.num 5)])])) with
        | some j => j
        | none => Json.obj []) = Json.obj [("red", Json.obj [("M", Json.num 5)])]
  rw [if_neg (jsonStringify_ne_empty _), parseJsonTop_stringify]

theorem demo_checkItem_ok : checkItem demoDB demoItem = .ok := by
  unfold checkItem
  rw [show findProduct demoDB demoItem.product_id = some demoProduct from rfl]
  show (if jsLtNum (variantStock (parsedVariants demoProduct) demoItem.color
        demoItem.size) demoItem.quantity = true
      then StockCheck.insufficient (variantStock (parsedVariants demoProduct)
        demoItem.color demoItem.size)
      else StockCheck.ok) = StockCheck.ok
  rw [demo_parsedVariants]
  rw [show variantStock (Json.obj [("red", Json.obj [("M", Json.num 5)])])
      demoItem.color demoItem.size = Json.num 5 from by
    simp [variantStock, Json.getField, lookupField, demoItem, Json.truthy]]
  rw [if_neg (by simp [jsLtNum, demoItem])]

theorem demo_validate : validateStock demoDB [demoItem] = none :=
  validateStock_ok demoDB [demoItem] (by
    intro it hit
    have h : it = demoItem := by simpa using hit
    rw [h, demo_checkItem_ok])

/-- C2 counterexample: the POST /orders handler of the second route file
performs no authentication; a request with no Authorization header at all
is served 201, not 401. -/
theorem C2_counterexample :
    demoPostNoAuth.auth = none ∧
    (routeOrdersPOST collabOk false 1234 demoDB demoPostNoAuth).resp.status = 201 ∧
    (routeOrdersPOST collabOk false 1234 demoDB demoPostNoAuth).resp ≠ unauthorized := by
  have hrun : runStockCalls collabOk demoPostNoAuth.auth demoDB [demoItem]
      = (demoDB, [mkStockCall demoPostNoAuth.auth demoItem], none) := rfl
  have h := routeOrdersPOST_created collabOk false 1234 demoDB demoPostNoAuth [demoItem]
    demoDB [mkStockCall demoPostNoAuth.auth demoItem] rfl (by decide) (by decide)
    (by simp) demo_validate hrun
    (by intro o ho; simp [demoDB] at ho) (by intro r hr; simp [demoDB] at hr)
  rw [h]
  refine ⟨rfl, rfl, ?_⟩
  intro hcon
  have := congrArg Resp.status hcon
  simp [unauthorized] at this

/-- C2 amended: the token verifier returns none (without throwing) whenever
the header is absent, lacks the Bearer scheme, or fails verification; and
every handler that consults it answers 401 Unauthorized in that case.  The
POST /orders variant of the second route file is the exception: it never
consults the verifier (see the counterexample). -/
theorem C2_unauthorized (verify : String → Option TokenPayload) (auth : Option String)
    (h : auth = none ∨ ∃ s, auth = some s ∧
      (listIsPre "Bearer ".data s.data = false ∨
        verify (String.mk (s.data.drop 7)) = none)) :
    getUserFromToken verify auth = none ∧
    (∀ strMode db, ordersGET verify strMode db auth = unauthorized) ∧
    (∀ collab strMode now db body,
      ordersPOST verify collab strMode now db ⟨auth, body⟩ = ⟨unauthorized, db, []⟩) ∧
    (∀ strMode now db oid body,
      ordersPUT verify strMode now db ⟨auth, oid, body⟩ = (unauthorized, db)) ∧
    (∀ strMode db, routeOrdersGET verify strMode db auth = unauthorized) ∧
    (∀ strMode now db oid body,
      routeOrdersPUT verify strMode now db ⟨auth, oid, body⟩ = (unauthorized, db)) ∧
    (∀ db, addressesGET verify db auth = unauthorized) ∧
    (∀ now db qid body, addressesPOST verify now db ⟨auth, qid, body⟩ = (unauthorized, db)) ∧
    (∀ db qid body, addressesPUT verify db ⟨auth, qid, body⟩ = (unauthorized, db)) ∧
    (∀ db qid body, addressesDELETE verify db ⟨auth, qid, body⟩ = (unauthorized, db)) := by
  have hnone : getUserFromToken verify auth = none := by
    rcases h with rfl | ⟨s, rfl, hcase⟩
    · rfl
    · unfold getUserFromToken
      rcases hcase with hpre | hver
      · have hpre2 : listIsPre ['B', 'e', 'a', 'r', 'e', 'r', ' '] s.data = false := hpre
        simp [hpre2]
      · cases hpb : listIsPre ['B', 'e', 'a', 'r', 'e', 'r', ' '] s.data
        · simp [hpb]
        · simp [hpb, hver]
  refine ⟨hnone, ?_, ?_, ?_, ?_, ?_, ?_, ?_, ?_, ?_⟩
  · intro strMode db
    unfold ordersGET
    simp only [hnone]
  · intro collab strMode now db body
    unfold ordersPOST
    simp only [hnone]
  · intro strMode now db oid body
    unfold ordersPUT
    simp only [hnone]
  · intro strMode db
    unfold routeOrdersGET
    simp only [hnone]
  · intro strMode now db oid body
    unfold routeOrdersPUT ordersPUT
    simp only [hnone]
  · intro db
    unfold addressesGET
    simp only [hnone]
  · intro now db qid body
    unfold addressesPOST
    simp only [hnone]
  · intro db qid body
    unfold addressesPUT
    simp only [hnone]
  · intro db qid body
    unfold addressesDELETE
    simp only [hnone]

/-- C2 amended witness: a request with no Authorization header gets 401
from the verifier-consulting handlers, at concrete inputs. -/
theorem C2_unauthorized_witness :
    getUserFromToken demoVerify none = none ∧
    ordersGET demoVerify false demoDB none = unauthorized ∧
    ordersPOST demoVerify collabOk false 1234 demoDB ⟨none, demoPostBody⟩
      = ⟨unauthorized, demoDB, []⟩ ∧
    ordersPUT demoVerify false 99 demoOrderDB ⟨none, some 7, ⟨some "shipped", none⟩⟩
      = (unauthorized, demoOrderDB) ∧
    addressesPOST demoVerify 50 demoAddrDB ⟨none, none, demoAddrBody⟩
      = (unauthorized, demoAddrDB) ∧
    addressesDELETE demoVerify demoAddrDB ⟨none, some 1, demoAddrBody⟩
      = (unauthorized, demoAddrDB) := by
  have h := C2_unauthorized demoVerify none (Or.inl rfl)
  exact ⟨h.1, h.2.1 false demoDB, h.2.2.1 collabOk false 1234 demoDB demoPostBody,
    h.2.2.2.1 false 99 demoOrderDB (some 7) ⟨some "shipped", none⟩,
    h.2.2.2.2.2.2.2.1 50 demoAddrDB none demoAddrBody,
    h.2.2.2.2.2.2.2.2.2 demoAddrDB (some 1) demoAddrBody⟩

theorem postBody_getField (strMode : Bool) (row : OrderRow) (ship : Json) (itemsJson : Json) :
    Json.getField (Json.obj (setField (orderRowFields strMode row) "shipping_address" ship
        ++ [("items", itemsJson)])) "total_amount"
      = some (driverNum strMode row.total_amount) ∧
    Json.getField (Json.obj (setField (orderRowFields strMode row) "shipping_address" ship
        ++ [("items", itemsJson)])) "subtotal"
      = some (driverNum strMode row.subtotal) ∧
    Json.getField (Json.obj (setField (orderRowFields strMode row) "shipping_address" ship
        ++ [("items", itemsJson)])) "items" = some itemsJson ∧
    Json.getField (Json.obj (setField (orderRowFields strMode row) "shipping_address" ship
        ++ [("items", itemsJson)])) "shipping_address" = some ship := by
  refine ⟨?_, ?_, ?_, ?_⟩ <;>
    simp [Json.getField, setField, orderRowFields, lookupField]

theorem orderItemRowJson_fields (strMode : Bool) (r : OrderItemRow) :
    Json.getField (orderItemRowJson strMode r) "price" = some (driverNum strMode r.price) ∧
    Json.getField (orderItemRowJson strMode r) "quantity"
      = some (driverNum strMode r.quantity) := by
  constructor <;> simp [orderItemRowJson, Json.getField, lookupField]

/-- C5 counterexample: when the driver returns numeric columns as strings,
a fully successful creation still answers 201 but the returned total_amount
is a JSON string, not a number, because the creation response performs no
Number() coercion. -/
theorem C5_counterexample :
    (ordersPOST demoVerify collabOk true 1234 demoDB demoPostReq).resp.status = 201 ∧
    Json.getField (ordersPOST demoVerify collabOk true 1234 demoDB demoPostReq).resp.body
        "total_amount" = some (Json.str (intToString 1000)) := by
  have hrun : runStockCalls collabOk demoPostReq.auth demoDB [demoItem]
      = (demoDB, [mkStockCall demoPostReq.auth demoItem], none) := rfl
  have h := ordersPOST_created demoVerify collabOk true 1234 demoDB demoPostReq
    ⟨"u1", "u1@mail"⟩ [demoItem] demoDB [mkStockCall demoPostReq.auth demoItem]
    rfl rfl (by decide) (by decide) (by simp) demo_validate hrun
    (by intro o ho; simp [demoDB] at ho) (by intro r hr; simp [demoDB] at hr)
  rw [h]
  constructor
  · rfl
  · have hg := (postBody_getField true
      (newOrderRow 1234 demoDB.nextOrderId (some "u1") demoPostReq.body)
      (shipStoredVal demoPostReq.body.shipping_address)
      (.arr ((buildItemRows demoDB.nextOrderItemId demoDB.nextOrderId [demoItem]).map
        (orderItemRowJson true)))).1
    rw [show (⟨⟨201, Json.obj (setField (orderRowFields true
          (newOrderRow 1234 demoDB.nextOrderId (some "u1") demoPostReq.body))
          "shipping_address" (shipStoredVal demoPostReq.body.shipping_address)
        ++ [("items", .arr ((buildItemRows demoDB.nextOrderItemId demoDB.nextOrderId
              [demoItem]).map (orderItemRowJson true)))])⟩,
        { demoDB with
            orders := demoDB.orders
              ++ [newOrderRow 1234 demoDB.nextOrderId (some "u1") demoPostReq.body],
            nextOrderId := demoDB.nextOrderId + 1,
            order_items := demoDB.order_items
              ++ buildItemRows demoDB.nextOrderItemId demoDB.nextOrderId [demoItem],
            nextOrderItemId := demoDB.nextOrderItemId + ([demoItem] : List OrderItemReq).length },
        [mkStockCall demoPostReq.auth demoItem]⟩ : PostResult).resp.body
      = Json.obj (setField (orderRowFields true
          (newOrderRow 1234 demoDB.nextOrderId (some "u1") demoPostReq.body))
          "shipping_address" (shipStoredVal demoPostReq.body.shipping_address)
        ++ [("items", .arr ((buildItemRows demoDB.nextOrderItemId demoDB.nextOrderId
              [demoItem]).map (orderItemRowJson true)))]) from rfl]
    rw [hg]
    rw [show (newOrderRow 1234 demoDB.nextOrderId (some "u1")
        demoPostReq.body).total_amount = 1000 from rfl]
    rfl

/-- C5 amended: a fully successful creation answers 201 and the returned
items array has exactly as many entries as the request; the numeric fields
of the creation response are forwarded from the driver without Number()
coercion, so they are JSON numbers exactly in the mode where the driver
returns numbers (when the driver returns numeric columns as strings they
are strings -- see the counterexample). -/
theorem C5_created_response (verify : String → Option TokenPayload) (collab : Collab)
    (strMode : Bool) (now : Nat) (db : DB) (req : OrdersPostRequest) (u : AuthUser)
    (items : List OrderItemReq) (db1 : DB) (calls : List StockCall)
    (hauth : getUserFromToken verify req.auth = some u)
    (hitems : req.body.items = some items)
    (htot : jsTruthy req.body.total = true)
    (hmail : jsTruthy req.body.customer_email = true)
    (hne : items ≠ [])
    (hval : validateStock db items = none)
    (hrun : runStockCalls collab req.auth db items = (db1, calls, none))
    (hfreshO : ∀ o ∈ db1.orders, o.id ≠ db1.nextOrderId)
    (hfreshI : ∀ r ∈ db1.order_items, r.order_id ≠ db1.nextOrderId) :
    (ordersPOST verify collab strMode now db req).resp.status = 201 ∧
    (∃ entries : List Json,
      Json.getField (ordersPOST verify collab strMode now db req).resp.body "items"
        = some (.arr entries) ∧
      entries.length = items.length ∧
      (∃ n : Int, Json.getField (ordersPOST verify collab strMode now db req).resp.body
        "total_amount" = some (driverNum strMode n)) ∧
      (∃ n : Int, Json.getField (ordersPOST verify collab strMode now db req).resp.body
        "subtotal" = some (driverNum strMode n)) ∧
      (∀ e ∈ entries, (∃ n : Int, Json.getField e "price" = some (driverNum strMode n)) ∧
        (∃ n : Int, Json.getField e "quantity" = some (driverNum strMode n)))) := by
  rw [ordersPOST_created verify collab strMode now db req u items db1 calls hauth hitems
    htot hmail hne hval hrun hfreshO hfreshI]
  obtain ⟨hg1, hg2, hg3, _⟩ := postBody_getField strMode
    (newOrderRow now db1.nextOrderId (some u.id) req.body)
    (shipStoredVal req.body.shipping_address)
    (.arr ((buildItemRows db1.nextOrderItemId db1.nextOrderId items).map
      (orderItemRowJson strMode)))
  refine ⟨rfl, (buildItemRows db1.nextOrderItemId db1.nextOrderId items).map
      (orderItemRowJson strMode), hg3, ?_, ⟨_, hg1⟩, ⟨_, hg2⟩, ?_⟩
  · rw [List.length_map, buildItemRows_length]
  · intro e he
    obtain ⟨r, _, hre⟩ := List.mem_map.mp he
    obtain ⟨hp, hq⟩ := orderItemRowJson_fields strMode r
    rw [← hre]
    exact ⟨⟨r.price, hp⟩, ⟨r.quantity, hq⟩⟩

/-- C5 amended witness: the demo request in number-returning driver mode. -/
theorem C5_created_response_witness :
    (ordersPOST demoVerify collabOk false 1234 demoDB demoPostReq).resp.status = 201 ∧
    (∃ entries : List Json,
      Json.getField (ordersPOST demoVerify collabOk false 1234 demoDB
          demoPostReq).resp.body "items" = some (.arr entries) ∧
      entries.length = ([demoItem] : List OrderItemReq).length ∧
      (∃ n : Int, Json.getField (ordersPOST demoVerify collabOk false 1234 demoDB
          demoPostReq).resp.body "total_amount" = some (driverNum false n)) ∧
      (∃ n : Int, Json.getField (ordersPOST demoVerify collabOk false 1234 demoDB
          demoPostReq).resp.body "subtotal" = some (driverNum false n)) ∧
      (∀ e ∈ entries, (∃ n : Int, Json.getField e "price" = some (driverNum false n)) ∧
        (∃ n : Int, Json.getField e "quantity" = some (driverNum false n)))) :=
  C5_created_response demoVerify collabOk false 1234 demoDB demoPostReq ⟨"u1", "u1@mail"⟩
    [demoItem] demoDB [mkStockCall demoPostReq.auth demoItem]
    rfl rfl (by decide) (by decide) (by simp) demo_validate rfl
    (by intro o ho; simp [demoDB] at ho) (by intro r hr; simp [demoDB] at hr)

theorem mem_insertByCreatedDesc (a o : OrderRow) :
    ∀ l, a ∈ insertByCreatedDesc o l ↔ a = o ∨ a ∈ l := by
  intro l
  induction l with
  | nil => simp [insertByCreatedDesc]
  | cons x xs ih =>
    unfold insertByCreatedDesc
    split
    · rw [List.mem_cons, ih, List.mem_cons]
      tauto
    · simp [List.mem_cons]

theorem mem_sortByCreatedDesc (a : OrderRow) :
    ∀ l, a ∈ sortByCreatedDesc l ↔ a ∈ l := by
  intro l
  induction l with
  | nil => simp [sortByCreatedDesc]
  | cons x xs ih =>
    unfold sortByCreatedDesc
    rw [List.foldr_cons, mem_insertByCreatedDesc]
    unfold sortByCreatedDesc at ih
    rw [ih]
    simp

theorem exceptList_ok_of (g : OrderRow → Except Unit Json) :
    ∀ l : List OrderRow, (∀ x ∈ l, ∃ y, g x = .ok y) →
    ∃ es, exceptList (l.map g) = .ok es ∧ ∀ x ∈ l, ∃ y ∈ es, g x = .ok y := by
  intro l
  induction l with
  | nil =>
    intro _
    exact ⟨[], rfl, by simp⟩
  | cons x xs ih =>
    intro h
    obtain ⟨y, hy⟩ := h x (by simp)
    obtain ⟨es, hes, hall⟩ := ih (fun z hz => h z (by simp [hz]))
    refine ⟨y :: es, ?_, ?_⟩
    · rw [List.map_cons]
      simp [exceptList, hy, hes]
    · intro z hz
      rcases List.mem_cons.mp hz with rfl | hz2
      · exact ⟨y, by simp, hy⟩
      · obtain ⟨w, hw1, hw2⟩ := hall z hz2
        exact ⟨w, by simp [hw1], hw2⟩

theorem ordersGET_ok (verify : String → Option TokenPayload) (strMode : Bool) (db : DB)
    (auth : Option String) (u : AuthUser) (es : List Json)
    (hauth : getUserFromToken verify auth = some u)
    (hes : exceptList ((sortByCreatedDesc (db.orders.filter
        (fun o => o.user_id == some u.id))).map (orderGetEntry strMode db)) = .ok es) :
    ordersGET verify strMode db auth = ⟨200, .arr es⟩ := by
  unfold ordersGET
  rw [hauth]
  have h2 : (match exceptList ((sortByCreatedDesc (db.orders.filter
      (fun o => o.user_id == some u.id))).map (orderGetEntry strMode db)) with
    | Except.ok entries => (⟨200, Json.arr entries⟩ : Resp)
    | Except.error _ => serverError) = ⟨200, Json.arr es⟩ := by
    rw [hes]
  exact h2

theorem orderGetEntry_ok_of (strMode : Bool) (db : DB) (o : OrderRow)
    (hp : shippingParses o = true) :
    ∃ e, orderGetEntry strMode db o = .ok e := by
  unfold shippingParses at hp
  unfold orderGetEntry
  cases hps : parseShippingField o.shipping_address with
  | error e =>
    rw [hps] at hp
    simp at hp
  | ok ship =>
    exact ⟨_, rfl⟩

theorem orderGetEntry_ship (strMode : Bool) (db : DB) (o : OrderRow) (ship : Json)
    (hso : parseShippingField o.shipping_address = .ok ship) :
    ∃ e, orderGetEntry strMode db o = .ok e ∧
      Json.getField e "shipping_address" = some ship := by
  unfold orderGetEntry
  rw [hso]
  exact ⟨_, rfl, by simp [Json.getField, lookupField]⟩

/-- C6: a shipping_address object passed into a successful creation comes
back as the same JSON object (not a string) both in the creation response
and in a subsequent GET /orders listing: the serialize-at-insert,
parse-at-read pair round-trips the value. -/
theorem C6_shipping_roundtrip (verify : String → Option TokenPayload) (collab : Collab)
    (strMode : Bool) (now : Nat) (db : DB) (req : OrdersPostRequest) (u : AuthUser)
    (items : List OrderItemReq) (db1 : DB) (calls : List StockCall)
    (fields : List (String × Json))
    (hauth : getUserFromToken verify req.auth = some u)
    (hitems : req.body.items = some items)
    (htot : jsTruthy req.body.total = true)
    (hmail : jsTruthy req.body.customer_email = true)
    (hne : items ≠ [])
    (hval : validateStock db items = none)
    (hrun : runStockCalls collab req.auth db items = (db1, calls, none))
    (hfreshO : ∀ o ∈ db1.orders, o.id ≠ db1.nextOrderId)
    (hfreshI : ∀ r ∈ db1.order_items, r.order_id ≠ db1.nextOrderId)
    (hship : req.body.shipping_address = some (Json.obj fields))
    (hparses : ∀ o ∈ db1.orders, o.user_id = some u.id → shippingParses o = true) :
    ((ordersPOST verify collab strMode now db req).resp.status = 201 ∧
      Json.getField (ordersPOST verify collab strMode now db req).resp.body
        "shipping_address" = some (Json.obj fields)) ∧
    (∃ entries : List Json,
      ordersGET verify strMode (ordersPOST verify collab strMode now db req).db req.auth
        = ⟨200, .arr entries⟩ ∧
      ∃ e ∈ entries, Json.getField e "shipping_address" = some (Json.obj fields)) := by
  have hsv : shipStoredVal req.body.shipping_address = Json.obj fields := by
    rw [hship]
    rfl
  rw [ordersPOST_created verify collab strMode now db req u items db1 calls hauth hitems
    htot hmail hne hval hrun hfreshO hfreshI]
  obtain ⟨_, _, _, hg4⟩ := postBody_getField strMode
    (newOrderRow now db1.nextOrderId (some u.id) req.body)
    (shipStoredVal req.body.shipping_address)
    (.arr ((buildItemRows db1.nextOrderItemId db1.nextOrderId items).map
      (orderItemRowJson strMode)))
  constructor
  · exact ⟨rfl, by rw [hg4, hsv]⟩
  · -- the created database and row
    have hrowship : parseShippingField
        (newOrderRow now db1.nextOrderId (some u.id) req.body).shipping_address
        = .ok (Json.obj fields) := by
      show parseShippingField (some (storedShipping req.body.shipping_address))
        = Except.ok (Json.obj fields)
      rw [parseShippingField_stored req.body.shipping_address, hsv]
    have hrowuser : (newOrderRow now db1.nextOrderId (some u.id) req.body).user_id
        = some u.id := rfl
    have hallok : ∀ o ∈ sortByCreatedDesc ((db1.orders
          ++ [newOrderRow now db1.nextOrderId (some u.id) req.body]).filter
            (fun o => o.user_id == some u.id)),
        ∃ y, orderGetEntry strMode ({ db1 with
          orders := db1.orders ++ [newOrderRow now db1.nextOrderId (some u.id) req.body],
          nextOrderId := db1.nextOrderId + 1,
          order_items := db1.order_items
            ++ buildItemRows db1.nextOrderItemId db1.nextOrderId items,
          nextOrderItemId := db1.nextOrderItemId + items.length } : DB) o = .ok y := by
      intro o ho
      have ho2 := (mem_sortByCreatedDesc o _).mp ho
      have ho3 := List.mem_filter.mp ho2
      rcases List.mem_append.mp ho3.1 with hold | hnew
      · have huser : o.user_id = some u.id := by
          have := ho3.2
          simpa using this
        exact orderGetEntry_ok_of strMode _ o (hparses o hold huser)
      · have : o = newOrderRow now db1.nextOrderId (some u.id) req.body := by
          simpa using hnew
        rw [this]
        obtain ⟨e, he, _⟩ := orderGetEntry_ship strMode _ _ _ hrowship
        exact ⟨e, he⟩
    obtain ⟨es, hes, hall⟩ := exceptList_ok_of _ _ hallok
    refine ⟨es, ordersGET_ok verify strMode _ req.auth u es hauth hes, ?_⟩
    have hrowmem : newOrderRow now db1.nextOrderId (some u.id) req.body
        ∈ sortByCreatedDesc ((db1.orders
          ++ [newOrderRow now db1.nextOrderId (some u.id) req.body]).filter
            (fun o => o.user_id == some u.id)) := by
      rw [mem_sortByCreatedDesc]
      apply List.mem_filter.mpr
      constructor
      · simp
      · simp [hrowuser]
    obtain ⟨y, hy1, hy2⟩ := hall _ hrowmem
    obtain ⟨e, he, hefield⟩ := orderGetEntry_ship strMode _ _ _ hrowship
    have : y = e := by
      rw [hy2] at he
      injection he
    exact ⟨y, hy1, by rw [this]; exact hefield⟩

theorem C6_shipping_roundtrip_witness :
    ((ordersPOST demoVerify collabOk false 1234 demoDB demoPostReq).resp.status = 201 ∧
      Json.getField (ordersPOST demoVerify collabOk false 1234 demoDB demoPostReq).resp.body
        "shipping_address" = some (Json.obj [("city", Json.str "Manila")])) ∧
    (∃ entries : List Json,
      ordersGET demoVerify false
          (ordersPOST demoVerify collabOk false 1234 demoDB demoPostReq).db demoPostReq.auth
        = ⟨200, .arr entries⟩ ∧
      ∃ e ∈ entries, Json.getField e "shipping_address"
        = some (Json.obj [("city", Json.str "Manila")])) :=
  C6_shipping_roundtrip demoVerify collabOk false 1234 demoDB demoPostReq ⟨"u1", "u1@mail"⟩
    [demoItem] demoDB [mkStockCall demoPostReq.auth demoItem]
    [("city", Json.str "Manila")]
    rfl rfl (by decide) (by decide) (by simp) demo_validate rfl
    (by intro o ho; simp [demoDB] at ho) (by intro r hr; simp [demoDB] at hr)
    rfl
    (by intro o ho; simp [demoDB] at ho)
